import Mathlib

/-!
Verification of the device-registration logic of `fbtft_device`.

A shallow embedding of `fbtft_device.c` (the `fbtft_device` kernel module).

* C strings are lists of characters; the end of the list is the terminating NUL,
  so a list never contains the NUL character itself. A `char *` that may be NULL
  is an `Option`.
* The module parameters are gathered in `Params`, the module's static storage and
  the two device buses it talks to in `State`.
* The services of the surrounding kernel (`spi_busnum_to_master`,
  `spi_new_device`, `platform_device_register`) and the constants of `fbtft.h`
  are fields of `Kernel`; every theorem holds for every such kernel. The string
  routines of the kernel library (`strncmp`, `strsep`, `kstrtol`, ...) are
  written out.
* The structures of `fbtft.h` and of the kernel headers are declared outside the
  source file; their fields keep the values assigned to them as they are.
* `pr_info`/`pr_err`/`pr_debug` output and the `verbose` parameter, which only
  selects what is printed, are left out. Every `return` statement of
  `fbtft_device_init` is a separate constructor of `Outcome`.
-/

namespace FbtftDevice

/-! ## C library routines -/

/-- The kernel's `strncmp(cs, ct, count)`: compares at most `count` characters and
stops after a terminating NUL (the end of the list). -/
def strncmp : List Char → List Char → Nat → Int
  | _, _, 0 => 0
  | [], [], _ + 1 => 0
  | [], _ :: _, _ + 1 => -1
  | _ :: _, [], _ + 1 => 1
  | c :: cs, d :: ds, n + 1 =>
    if c ≠ d then (if c < d then -1 else 1) else strncmp cs ds n

/-- The C `strchr(s, c)`: the suffix of `s` starting at the first `c`, or `none`
(NULL) when `c` does not occur. -/
def strchr : List Char → Char → Option (List Char)
  | [], _ => none
  | x :: xs, c => if x = c then some (x :: xs) else strchr xs c

/-- The C `strsep(&s, delim)` for a one-character delimiter: the token before the
first delimiter, and the new value of `s`: the text after the delimiter, or
`none` (NULL) when there is no delimiter. -/
def strsep : List Char → Char → List Char × Option (List Char)
  | [], _ => ([], none)
  | x :: xs, c =>
    if x = c then ([], some xs)
    else ((x :: (strsep xs c).1), (strsep xs c).2)

/-- The C `strncpy(dest, src, n)` as the string then read from `dest`: at most
`n` characters of `src`. -/
def strncpy (src : List Char) (n : Nat) : List Char := src.take n

def EPERM : Int := 1
def EINVAL : Int := 22
def ERANGE : Int := 34
def ECANCELED : Int := 125

/-- Value of a character as a digit, as in the kernel's `_parse_integer`:
`'0'..'9'` and, case-insensitively, `'a'..'f'`. -/
def digit_value (c : Char) : Option Nat :=
  if '0'.toNat ≤ c.toNat ∧ c.toNat ≤ '9'.toNat then some (c.toNat - '0'.toNat)
  else if 'a'.toNat ≤ c.toNat ∧ c.toNat ≤ 'f'.toNat then some (c.toNat - 'a'.toNat + 10)
  else if 'A'.toNat ≤ c.toNat ∧ c.toNat ≤ 'F'.toNat then some (c.toNat - 'A'.toNat + 10)
  else none

/-- The digit loop of the kernel's `_parse_integer(s, base, &res)`: consumes
digits below `base`, accumulating `res * base + val`; returns the accumulated
value (unbounded here, the caller tests it against `ULLONG_MAX`), the number
`rv` of characters consumed and the unconsumed rest. -/
def parse_integer (base : Nat) : List Char → Nat → Nat → Nat × Nat × List Char
  | [], res, rv => (res, rv, [])
  | c :: cs, res, rv =>
    match digit_value c with
    | none => (res, rv, c :: cs)
    | some val =>
      if val ≥ base then (res, rv, c :: cs)
      else parse_integer base cs (res * base + val) (rv + 1)

/-- The kernel's `_kstrtoull(s, base, &res)` for an explicit base: `-ERANGE` when
the digits overflow 64 bits, `-EINVAL` when there is no digit or when anything but
one optional newline follows the digits. -/
def kstrtoull_digits (s : List Char) (base : Nat) : Except Int Nat :=
  match parse_integer base s 0 0 with
  | (res, rv, rest) =>
    if res ≥ 2 ^ 64 then .error (-ERANGE)
    else if rv = 0 then .error (-EINVAL)
    else
      let rest := if rest.head? = some '\n' then rest.tail else rest
      if rest ≠ [] then .error (-EINVAL) else .ok res

/-- The kernel's `kstrtoull`: one optional leading `'+'`. -/
def kstrtoull (s : List Char) (base : Nat) : Except Int Nat :=
  kstrtoull_digits (if s.head? = some '+' then s.tail else s) base

/-- The kernel's `kstrtoll`: a leading `'-'` negates; the value must fit a signed
64-bit `long long`. Kernels differ on the text `-0`: the range test after the
negation is `(long long)(-tmp) >= 0` in the older ones, which return `-ERANGE`
for it, and `> 0` in the newer ones, which accept it; `strict` selects the
older test. -/
def kstrtoll (strict : Bool) (s : List Char) (base : Nat) : Except Int Int :=
  if s.head? = some '-' then
    match kstrtoull_digits s.tail base with
    | .error e => .error e
    | .ok tmp =>
      if tmp > 2 ^ 63 ∨ (strict = true ∧ tmp = 0) then .error (-ERANGE)
      else .ok (-(tmp : Int))
  else
    match kstrtoull s base with
    | .error e => .error e
    | .ok tmp => if tmp ≥ 2 ^ 63 then .error (-ERANGE) else .ok (tmp : Int)

/-- The kernel's `kstrtol(s, base, &res)` where `long` has `bits` bits: `kstrtoll`
followed by the check that the value survives the narrowing to `long`. The result
is `.error ret` for a non-zero return value and `.ok val` for return value 0. -/
def kstrtol (strict : Bool) (bits : Nat) (s : List Char) (base : Nat) : Except Int Int :=
  match kstrtoll strict s base with
  | .error e => .error e
  | .ok tmp =>
    if -(2 ^ (bits - 1) : Int) ≤ tmp ∧ tmp < (2 ^ (bits - 1) : Int) then .ok tmp
    else .error (-ERANGE)

/-- The C conversion `(int) val` of a `long`: reduction modulo `2^32` into the
signed 32-bit range. -/
def int_cast (val : Int) : Int := (val + 2 ^ 31) % 2 ^ 32 - 2 ^ 31

/-- Decimal digits of a number, most significant first, in front of `acc`
(`fuel` bounds the number of digits). -/
def utoa_aux : Nat → Nat → List Char → List Char
  | 0, _, acc => acc
  | fuel + 1, n, acc =>
    let acc' := Char.ofNat ('0'.toNat + n % 10) :: acc
    if n / 10 = 0 then acc' else utoa_aux fuel (n / 10) acc'

/-- The text printed by the `%u` conversion. -/
def utoa (n : Nat) : List Char := utoa_aux (n + 1) n []

/-- The text printed by the `%d` conversion. -/
def itoa (v : Int) : List Char :=
  if v < 0 then '-' :: utoa v.natAbs else utoa v.natAbs

/-- The C `snprintf(str, size, "%s.%u", name, cs)` as the string left in `str`:
the formatted text cut to `size - 1` characters. -/
def snprintf_name_dot_u (size : Nat) (name : List Char) (cs : Nat) : List Char :=
  (name ++ '.' :: utoa cs).take (size - 1)

/-! ## Data model -/

def MAX_GPIOS : Nat := 32

/-- The `SPI_NAME_SIZE` of `linux/mod_devicetable.h`. -/
def SPI_NAME_SIZE : Nat := 32

def SPI_MODE_0 : Int := 0
def SPI_MODE_3 : Int := 3

/-- The `struct fbtft_gpio` of `fbtft.h`: a symbolic pin name and a pin number,
kept as the `int` that line 637 stores and line 768 prints. An entry with an
empty name ends a sequence of bindings. -/
structure fbtft_gpio where
  name : List Char
  gpio : Int
deriving DecidableEq, Repr

/-- The fields of `struct fbtft_display` (member `display` of the platform
data) that `fbtft_device.c` reads or writes. `init_sequence` is a pointer:
`none` is NULL, `some l` points to the values `l`. -/
structure fbtft_display where
  buswidth : Nat := 0
  backlight : Nat := 0
  width : Nat := 0
  height : Nat := 0
  debug : Nat := 0
  init_sequence : Option (List Int) := none
deriving DecidableEq, Repr

/-- The fields of `struct fbtft_platform_data` that `fbtft_device.c` reads or
writes. `gpios` is the array the pointer refers to, its terminating empty entry
included; `gamma` is a string pointer, `none` being NULL. -/
structure fbtft_platform_data where
  display : fbtft_display := {}
  gpios : List fbtft_gpio := []
  rotate : Nat := 0
  bgr : Bool := false
  fps : Nat := 0
  txbuflen : Int := 0
  startbyte : Nat := 0
  gamma : Option (List Char) := none
deriving DecidableEq, Repr

structure spi_board_info where
  modalias : List Char
  max_speed_hz : Nat
  bus_num : Nat := 0
  chip_select : Nat := 0
  mode : Int
  platform_data : fbtft_platform_data
deriving DecidableEq, Repr

/-- A `struct platform_device`; `platform_data` is `dev.platform_data`. -/
structure platform_device where
  name : List Char
  id : Int
  platform_data : fbtft_platform_data
deriving DecidableEq, Repr

structure fbtft_device_display where
  name : List Char
  spi : Option spi_board_info := none
  pdev : Option platform_device := none
deriving DecidableEq, Repr

/-- An SPI controller; `name` is `dev_name(&master->dev)`. -/
structure spi_master where
  name : List Char
  bus_num : Nat
deriving DecidableEq, Repr

/-- A device on the SPI bus; `name` is `dev_name(&spi->dev)`. -/
structure spi_device where
  name : List Char
  modalias : List Char
  max_speed_hz : Nat
  chip_select : Nat
  mode : Int
  platform_data : fbtft_platform_data
deriving DecidableEq, Repr

/-- The module parameters. `name` and `gamma` are `charp` parameters, `none`
when not given (NULL); `gpios_num` and `init_num` are the lengths of `gpios`
and `init`. -/
structure Params where
  name : Option (List Char) := none
  rotate : Nat := 0
  busnum : Nat := 0
  cs : Nat := 0
  speed : Nat := 0
  mode : Int := -1
  gpios : List (List Char) := []
  fps : Nat := 0
  gamma : Option (List Char) := none
  txbuflen : Int := 0
  bgr : Int := -1
  startbyte : Nat := 0
  custom : Bool := false
  width : Nat := 0
  height : Nat := 0
  buswidth : Nat := 0
  init : List Int := []
  debug : Nat := 0
deriving DecidableEq, Repr

/-- What `fbtft_device.c` takes from its surroundings: constants of `fbtft.h`,
the width of `long`, the variant of `kstrtoll`, and the kernel services it calls.
`spi_new_device master info bus` is the new device, or `none` for NULL;
`platform_device_register pdev bus` is the error number, 0 for success (the C
function returns its negation). -/
structure Kernel where
  FBTFT_MAX_INIT_SEQUENCE : Nat
  FBTFT_GPIO_NAME_SIZE : Nat
  BITS_PER_LONG : Nat
  KSTRTOLL_STRICT : Bool
  spi_busnum_to_master : Nat → Option spi_master
  spi_new_device : spi_master → spi_board_info → List spi_device → Option spi_device
  platform_device_register : platform_device → List platform_device → Nat

/-- The module's static storage (`displays`, `fbtft_device_param_gpios`,
`spi_device`, `p_device`) and the registered devices of the two buses
(`spi_bus_type`, `platform_bus_type`). `p_device` points into `displays`; it is
kept as the value it points to. -/
structure State where
  displays : List fbtft_device_display
  fbtft_device_param_gpios : List fbtft_gpio
  spi_bus : List spi_device
  platform_bus : List platform_device
  spi_device : Option spi_device
  p_device : Option platform_device
deriving DecidableEq, Repr

/-- Every `return` of `fbtft_device_init`, by source line, and `oops` for a NULL
pointer dereference, after which the function does not return. -/
inductive Outcome where
  | registered
  | init_too_long
  | gpios_too_many
  | gpios_missing_colon
  | gpios_something_bad
  | gpios_bad_number
  | missing_name
  | canceled
  | no_spi_master
  | broken_displays
  | spi_new_device_failed
  | platform_device_register_failed (ret : Int)
  | display_not_supported
  | oops
deriving DecidableEq, Repr

/-- The value returned by `fbtft_device_init` at each `return`. -/
def Outcome.ret : Outcome → Option Int
  | .registered => some 0
  | .init_too_long => some (-EINVAL)
  | .gpios_too_many => some (-EINVAL)
  | .gpios_missing_colon => some (-EINVAL)
  | .gpios_something_bad => some (-EINVAL)
  | .gpios_bad_number => some (-EINVAL)
  | .missing_name => some (-EINVAL)
  | .canceled => some (-ECANCELED)
  | .no_spi_master => some (-EINVAL)
  | .broken_displays => some (-EINVAL)
  | .spi_new_device_failed => some (-EPERM)
  | .platform_device_register_failed ret => some ret
  | .display_not_supported => some (-EINVAL)
  | .oops => none

/-! ## The catalog -/

/-- An initialiser `{ "name", number }` of the `gpios` arrays. -/
def gp (name : String) (gpio : Int) : fbtft_gpio := { name := name.toList, gpio := gpio }

/-- The initialiser `{}` that ends every `gpios` array. -/
def gpio_end : fbtft_gpio := { name := [], gpio := 0 }

/-- The table `displays` as built (source lines 130-523); the last entry is the
slot used with the `custom` argument. -/
def displays : List fbtft_device_display := [
  { name := "adafruit18fb".toList,
    spi := some {
      modalias := "adafruit18fb".toList, max_speed_hz := 4000000, mode := SPI_MODE_0,
      platform_data := { gpios := [gp "reset" 25, gp "dc" 24, gp "led" 23, gpio_end] } } },
  { name := "adafruit18greenfb".toList,
    spi := some {
      modalias := "adafruit18greenfb".toList, max_speed_hz := 4000000, mode := SPI_MODE_0,
      platform_data := { gpios := [gp "reset" 25, gp "dc" 24, gp "led" 23, gpio_end] } } },
  { name := "adafruit22".toList,
    spi := some {
      modalias := "fb_hx8340bn".toList, max_speed_hz := 32000000, mode := SPI_MODE_0,
      platform_data := { display := { buswidth := 9, backlight := 1 }, bgr := true, gpios := [gp "reset" 25, gp "led" 23, gpio_end] } } },
  { name := "adafruit22fb".toList,
    spi := some {
      modalias := "adafruit22fb".toList, max_speed_hz := 32000000, mode := SPI_MODE_0,
      platform_data := { gpios := [gp "reset" 25, gp "led" 23, gpio_end] } } },
  { name := "flexfb".toList,
    spi := some {
      modalias := "flexfb".toList, max_speed_hz := 32000000, mode := SPI_MODE_0,
      platform_data := { gpios := [gp "reset" 25, gp "dc" 24, gpio_end] } } },
  { name := "flexpfb".toList,
    pdev := some {
      name := "flexpfb".toList, id := 0,
      platform_data := { gpios := [gp "reset" 17, gp "dc" 1, gp "wr" 0, gp "cs" 21, gp "db00" 9, gp "db01" 11, gp "db02" 18, gp "db03" 23, gp "db04" 24, gp "db05" 25, gp "db06" 8, gp "db07" 7, gp "led" 4, gpio_end] } } },
  { name := "hy28afb".toList,
    spi := some {
      modalias := "hy28afb".toList, max_speed_hz := 32000000, mode := SPI_MODE_3,
      platform_data := { gpios := [gp "reset" 25, gp "led" 18, gpio_end] } } },
  { name := "ili9341fb".toList,
    spi := some {
      modalias := "ili9341fb".toList, max_speed_hz := 32000000, mode := SPI_MODE_0,
      platform_data := { gpios := [gp "reset" 23, gp "led" 24, gpio_end] } } },
  { name := "itdb28".toList,
    pdev := some {
      name := "fb_ili9325".toList, id := 0,
      platform_data := { display := { buswidth := 8, backlight := 1 }, bgr := true, gpios := [gpio_end] } } },
  { name := "itdb28_spi".toList,
    spi := some {
      modalias := "fb_ili9325".toList, max_speed_hz := 32000000, mode := SPI_MODE_0,
      platform_data := { display := { buswidth := 8, backlight := 1 }, bgr := true, gpios := [gp "reset" 25, gp "dc" 24, gpio_end] } } },
  { name := "itdb28fb".toList,
    pdev := some {
      name := "itdb28fb".toList, id := 0,
      platform_data := { gpios := [gp "reset" 17, gp "dc" 1, gp "wr" 0, gp "cs" 21, gp "db00" 9, gp "db01" 11, gp "db02" 18, gp "db03" 23, gp "db04" 24, gp "db05" 25, gp "db06" 8, gp "db07" 7, gp "led" 4, gpio_end] } } },
  { name := "itdb28spifb".toList,
    spi := some {
      modalias := "itdb28spifb".toList, max_speed_hz := 32000000, mode := SPI_MODE_0,
      platform_data := { gpios := [gp "reset" 25, gp "dc" 24, gpio_end] } } },
  { name := "mi0283qt-9a".toList,
    spi := some {
      modalias := "fb_ili9341".toList, max_speed_hz := 32000000, mode := SPI_MODE_0,
      platform_data := { display := { buswidth := 9, backlight := 1 }, bgr := true, gpios := [gp "reset" 25, gp "led" 18, gpio_end] } } },
  { name := "nokia3310".toList,
    spi := some {
      modalias := "fb_pcd8544".toList, max_speed_hz := 400000, mode := SPI_MODE_0,
      platform_data := { display := { buswidth := 8 }, gpios := [gp "reset" 25, gp "dc" 24, gp "led" 23, gpio_end] } } },
  { name := "nokia3310fb".toList,
    spi := some {
      modalias := "nokia3310fb".toList, max_speed_hz := 4000000, mode := SPI_MODE_0,
      platform_data := { gpios := [gp "reset" 25, gp "dc" 24, gp "led" 23, gpio_end] } } },
  { name := "r61505ufb".toList,
    spi := some {
      modalias := "r61505ufb".toList, max_speed_hz := 32000000, mode := SPI_MODE_0,
      platform_data := { gpios := [gp "reset" 23, gp "led" 24, gp "dc" 7, gpio_end] } } },
  { name := "sainsmart18".toList,
    spi := some {
      modalias := "fb_st7735r".toList, max_speed_hz := 32000000, mode := SPI_MODE_0,
      platform_data := { display := { buswidth := 8 }, gpios := [gp "reset" 25, gp "dc" 24, gpio_end] } } },
  { name := "sainsmart18fb".toList,
    spi := some {
      modalias := "sainsmart18fb".toList, max_speed_hz := 32000000, mode := SPI_MODE_0,
      platform_data := { gpios := [gp "reset" 25, gp "dc" 24, gpio_end] } } },
  { name := "sainsmart32spifb".toList,
    spi := some {
      modalias := "sainsmart32spifb".toList, max_speed_hz := 16000000, mode := SPI_MODE_0,
      platform_data := { gpios := [gp "reset" 25, gp "dc" 24, gpio_end] } } },
  { name := "sainsmart32fb".toList,
    pdev := some {
      name := "sainsmart32fb".toList, id := 0,
      platform_data := { gpios := [gpio_end] } } },
  { name := "spidev".toList,
    spi := some {
      modalias := "spidev".toList, max_speed_hz := 500000, mode := SPI_MODE_0,
      platform_data := { gpios := [gpio_end] } } },
  { name := "ssd1351fb".toList,
    spi := some {
      modalias := "ssd1351fb".toList, max_speed_hz := 20000000, mode := SPI_MODE_0,
      platform_data := { gpios := [gp "reset" 24, gp "dc" 25, gpio_end] } } },
  { name := [],
    spi := some {
      modalias := [], max_speed_hz := 0, mode := SPI_MODE_0,
      platform_data := { gpios := [gpio_end] } },
    pdev := some {
      name := [], id := 0,
      platform_data := { gpios := [gpio_end] } } }]

/-- The array `fbtft_device_param_gpios[MAX_GPIOS+1]` as built: all zero. -/
def fbtft_device_param_gpios_init : List fbtft_gpio := List.replicate (MAX_GPIOS + 1) gpio_end

/-- The static storage at module load, on given buses. -/
def state_at_load (spi_bus : List spi_device) (platform_bus : List platform_device) : State :=
  { displays := displays,
    fbtft_device_param_gpios := fbtft_device_param_gpios_init,
    spi_bus := spi_bus,
    platform_bus := platform_bus,
    spi_device := none,
    p_device := none }

/-! ## The module's functions -/

/-- The function `fbtft_device_delete(master, cs)` (lines 571-583): the device
named `"<master>.<cs>"`, when the SPI bus has one, is removed from the bus. -/
def fbtft_device_delete (master : spi_master) (cs : Nat) (s : State) : State :=
  let str := snprintf_name_dot_u 32 master.name cs
  match s.spi_bus.find? (fun dev => decide (dev.name = str)) with
  | some dev => { s with spi_bus := s.spi_bus.erase dev }
  | none => s

/-- The gpios loop of `fbtft_device_init` (lines 614-638), from index `i` on:
each entry is split at its first `':'`, its number half is read by `kstrtol` and
the binding is stored in `fbtft_device_param_gpios[i]`. The result is the
failing `return`, if any, and the array as the loop leaves it. `strcpy` copies
the whole name half; the size of the destination field plays no part in it. -/
def gpios_loop (k : Kernel) : List (List Char) → Nat → List fbtft_gpio →
    Option Outcome × List fbtft_gpio
  | [], _, buf => (none, buf)
  | e :: es, i, buf =>
    match strchr e ':' with
    | none => (some .gpios_missing_colon, buf)
    | some _ =>
      match strsep e ':' with
      | (_, none) => (some .gpios_something_bad, buf)
      | (p_name, some p_num) =>
        match kstrtol k.KSTRTOLL_STRICT k.BITS_PER_LONG p_num 10 with
        | .error _ => (some .gpios_bad_number, buf)
        | .ok val => gpios_loop k es (i + 1) (buf.set i { name := p_name, gpio := int_cast val })

/-- The custom branch of `fbtft_device_init` (lines 670-680): the last entry of
`displays` gets the requested name and keeps one template only. `none` is a
NULL pointer dereference. -/
def custom_install (p : Params) (name : List Char) (ds : List fbtft_device_display) :
    Option (List fbtft_device_display) :=
  let i := ds.length - 1
  match ds.get? i with
  | none => none
  | some d =>
    if p.speed = 0 then
      match d.pdev with
      | none => none
      | some pdev =>
        some (ds.set i { name := name, pdev := some { pdev with name := name }, spi := none })
    else
      match d.spi with
      | none => none
      | some spi =>
        some (ds.set i { name := name,
                         spi := some { spi with modalias := strncpy name SPI_NAME_SIZE },
                         pdev := none })

/-- The overrides written into the platform data (lines 710-732), field by field
(the assignments of those lines go to different fields); `rotate` is the
parameter after the range check of lines 655-659 and `gpio` the local pointer of
the same name, `none` for NULL. -/
def override_merge (p : Params) (rotate : Nat) (gpio : Option (List fbtft_gpio))
    (pdata : fbtft_platform_data) : fbtft_platform_data :=
  { rotate := rotate,
    bgr := if p.bgr = 0 then false else if p.bgr = 1 then true else pdata.bgr,
    startbyte := if p.startbyte ≠ 0 then p.startbyte else pdata.startbyte,
    gamma := (match p.gamma with
      | some g => some g
      | none => pdata.gamma),
    fps := if p.fps ≠ 0 then p.fps else pdata.fps,
    txbuflen := if p.txbuflen ≠ 0 then p.txbuflen else pdata.txbuflen,
    gpios := (match gpio with
      | some g => g
      | none => pdata.gpios),
    display :=
      { debug := p.debug,
        width := if p.custom then p.width else pdata.display.width,
        height := if p.custom then p.height else pdata.display.height,
        buswidth := if p.custom then p.buswidth else pdata.display.buswidth,
        init_sequence := if p.custom ∧ p.init.length ≠ 0 then some p.init
          else pdata.display.init_sequence,
        backlight := pdata.display.backlight } }

/-- The `spi` template after lines 694-701 and the override merging: chip select
and bus number are stamped on it, speed and mode when given. -/
def spi_configure (p : Params) (rotate : Nat) (gpio : Option (List fbtft_gpio))
    (spi : spi_board_info) : spi_board_info :=
  { modalias := spi.modalias,
    chip_select := p.cs,
    bus_num := p.busnum,
    max_speed_hz := if p.speed ≠ 0 then p.speed else spi.max_speed_hz,
    mode := if p.mode ≠ -1 then p.mode else spi.mode,
    platform_data := override_merge p rotate gpio spi.platform_data }

/-- The body of the `displays` loop for the entry `d = displays[i]` whose name
matched (lines 684-754). -/
def init_matched (k : Kernel) (p : Params) (rotate : Nat) (gpio : Option (List fbtft_gpio))
    (i : Nat) (d : fbtft_device_display) (s : State) : Outcome × State :=
  match d.spi with
  | some spi0 =>
    match k.spi_busnum_to_master p.busnum with
    | none => (.no_spi_master, s)
    | some master =>
      let s := fbtft_device_delete master p.cs s
      let spi := spi_configure p rotate gpio spi0
      let s := { s with displays := s.displays.set i { d with spi := some spi } }
      match k.spi_new_device master spi s.spi_bus with
      | none => (.spi_new_device_failed, { s with spi_device := none })
      | some dev => (.registered, { s with spi_device := some dev, spi_bus := s.spi_bus ++ [dev] })
  | none =>
    match d.pdev with
    | some pdev0 =>
      let pdev := { pdev0 with
        platform_data := override_merge p rotate gpio pdev0.platform_data }
      let s := { s with displays := s.displays.set i { d with pdev := some pdev },
                        p_device := some pdev }
      let ret : Int := -(k.platform_device_register pdev s.platform_bus : Int)
      if ret < 0 then (.platform_device_register_failed ret, s)
      else (.registered, { s with platform_bus := s.platform_bus ++ [pdev] })
    | none => (.broken_displays, s)

/-- The search of the `displays` loop (lines 682-683): index and entry of the
first element, counting from `i`, whose name `strncmp` finds equal to `name`
within 32 characters. -/
def displays_lookup (name : List Char) : List fbtft_device_display → Nat →
    Option (Nat × fbtft_device_display)
  | [], _ => none
  | d :: ds, i =>
    if strncmp name d.name 32 = 0 then some (i, d) else displays_lookup name ds (i + 1)

/-- The part of `fbtft_device_init` after the gpios loop (lines 648-761); `gpio` is
the local pointer of that name, `none` for NULL. -/
def init_after_gpios (k : Kernel) (p : Params) (gpio : Option (List fbtft_gpio)) (s : State) :
    Outcome × State :=
  match p.name with
  | none => (.missing_name, s)
  | some name =>
    let rotate := if p.rotate > 3 then 0 else p.rotate
    if strncmp name "list".toList 32 = 0 then (.canceled, s)
    else
      let installed := if p.custom then custom_install p name s.displays else some s.displays
      match installed with
      | none => (.oops, s)
      | some ds =>
        let s := { s with displays := ds }
        match displays_lookup name s.displays 0 with
        | some (i, d) => init_matched k p rotate gpio i d s
        | none => (.display_not_supported, s)

/-- The function `fbtft_device_init` (lines 585-783). -/
def fbtft_device_init (k : Kernel) (p : Params) (s : State) : Outcome × State :=
  if p.init.length > k.FBTFT_MAX_INIT_SEQUENCE then (.init_too_long, s)
  else if p.gpios.length > MAX_GPIOS then (.gpios_too_many, s)
  else
    match gpios_loop k p.gpios 0 s.fbtft_device_param_gpios with
    | (some err, buf) => (err, { s with fbtft_device_param_gpios := buf })
    | (none, buf) =>
      init_after_gpios k p (if p.gpios.length > 0 then some buf else none)
        { s with fbtft_device_param_gpios := buf }

/-- The function `fbtft_device_exit` (lines 785-797): the held devices are
removed from their buses. -/
def fbtft_device_exit (s : State) : State :=
  let s := (match s.spi_device with
    | some dev => { s with spi_bus := s.spi_bus.erase dev }
    | none => s)
  match s.p_device with
  | some pdev => { s with platform_bus := s.platform_bus.erase pdev }
  | none => s

/-! ## Notions used to state the claims -/

/-- The bindings of a sequence up to its terminating entry (the first one with an
empty name). -/
def gpio_bindings (l : List fbtft_gpio) : List fbtft_gpio :=
  l.takeWhile (fun g => decide (g.name ≠ []))

/-- The parameter text `"<name>:<number>"` of a binding. -/
def gpio_serialise (g : fbtft_gpio) : List Char := g.name ++ ':' :: itoa g.gpio

/-- The platform data that `fbtft_device_init` works on for a descriptor: that
of the `spi` template when there is one, else that of the `pdev` template. -/
def fbtft_device_display.pdata (d : fbtft_device_display) : Option fbtft_platform_data :=
  match d.spi with
  | some spi => some spi.platform_data
  | none => d.pdev.map (fun pdev => pdev.platform_data)

/-- The name half of a gpios entry: the text before its first `':'`. -/
def name_half (e : List Char) : List Char := e.takeWhile (fun c => decide (c ≠ ':'))

/-- The number half of a gpios entry: the text after its first `':'`. -/
def number_half (e : List Char) : List Char := (e.dropWhile (fun c => decide (c ≠ ':'))).drop 1

/-- The number that `kstrtol` reads in base 10, if it accepts the text. -/
def parsed_number (k : Kernel) (t : List Char) : Option Int :=
  match kstrtol k.KSTRTOLL_STRICT k.BITS_PER_LONG t 10 with
  | .ok val => some val
  | .error _ => none

/-- A gpios entry is well formed: it has a `':'` and `kstrtol` accepts its number
half. -/
def gpio_entry_ok (k : Kernel) (e : List Char) : Bool :=
  decide (':' ∈ e) && (parsed_number k (number_half e)).isSome

/-- The binding of a well-formed gpios entry. -/
def gpio_of_entry (k : Kernel) (e : List Char) : fbtft_gpio :=
  { name := name_half e, gpio := int_cast ((parsed_number k (number_half e)).getD 0) }

/-- The array `buf` after the bindings `gs` were stored at the indices `i`,
`i + 1`, ... -/
def store_bindings : List fbtft_gpio → Nat → List fbtft_gpio → List fbtft_gpio
  | buf, _, [] => buf
  | buf, i, g :: gs => store_bindings (buf.set i g) (i + 1) gs

/-- The `return`s of `fbtft_device_init` that reject the `init` or `gpios`
parameter (lines 603-634). -/
def Outcome.invalid_parameter : Outcome → Bool
  | .init_too_long => true
  | .gpios_too_many => true
  | .gpios_missing_colon => true
  | .gpios_something_bad => true
  | .gpios_bad_number => true
  | _ => false

/-- The outcomes of `fbtft_device_init` that lie behind the override merging of
lines 710-732. -/
def Outcome.merged : Outcome → Bool
  | .registered => true
  | .spi_new_device_failed => true
  | .platform_device_register_failed _ => true
  | _ => false

/-- The value of the parameter `rotate` after the range check of lines 655-659. -/
def rotate_checked (p : Params) : Nat := if p.rotate > 3 then 0 else p.rotate

/-- The custom slot of the catalog as built after the custom installation of
lines 670-680 for the given name: the `pdev` template alone when `speed` is
zero, the `spi` template alone otherwise. -/
def custom_slot (p : Params) (name : List Char) : fbtft_device_display :=
  if p.speed = 0 then
    { name := name,
      pdev := some { name := name, id := 0, platform_data := { gpios := [gpio_end] } },
      spi := none }
  else
    { name := name,
      spi := some { modalias := strncpy name SPI_NAME_SIZE, max_speed_hz := 0,
                    mode := SPI_MODE_0, platform_data := { gpios := [gpio_end] } },
      pdev := none }

/-- A kernel with 32-bit `long`, the older `kstrtoll` and the constants of
`fbtft.h`, in which bus 0
has a controller `spi0` and every registration succeeds. -/
def kernel_ok : Kernel :=
  { FBTFT_MAX_INIT_SEQUENCE := 512,
    FBTFT_GPIO_NAME_SIZE := 32,
    BITS_PER_LONG := 32,
    KSTRTOLL_STRICT := true,
    spi_busnum_to_master := fun n => if n = 0 then some { name := "spi0".toList, bus_num := 0 } else none,
    spi_new_device := fun master info _ =>
      some { name := snprintf_name_dot_u 32 master.name info.chip_select,
             modalias := info.modalias, max_speed_hz := info.max_speed_hz,
             chip_select := info.chip_select, mode := info.mode,
             platform_data := info.platform_data },
    platform_device_register := fun _ _ => 0 }

/-- A kernel like `kernel_ok` in which no device can be instantiated:
`spi_new_device` returns NULL and `platform_device_register` fails with
`EEXIST` (17). -/
def kernel_no_device : Kernel :=
  { FBTFT_MAX_INIT_SEQUENCE := 512,
    FBTFT_GPIO_NAME_SIZE := 32,
    BITS_PER_LONG := 32,
    KSTRTOLL_STRICT := true,
    spi_busnum_to_master := fun n => if n = 0 then some { name := "spi0".toList, bus_num := 0 } else none,
    spi_new_device := fun _ _ _ => none,
    platform_device_register := fun _ _ => 17 }

/-- Exactly one of the two templates of a descriptor is there. -/
def fbtft_device_display.one_template (d : fbtft_device_display) : Bool :=
  (d.spi.isSome && d.pdev.isNone) || (d.spi.isNone && d.pdev.isSome)


/-! ## String routines -/

theorem strncmp_self (a : List Char) (n : Nat) : strncmp a a n = 0 := by
  induction a generalizing n with
  | nil => cases n <;> simp [strncmp]
  | cons c cs ih => cases n <;> simp [strncmp, ih]

theorem strncmp_eq_zero_iff (a b : List Char) (n : Nat) (h : b.length < n) :
    strncmp a b n = 0 ↔ a = b := by
  induction a generalizing b n with
  | nil =>
    cases n with
    | zero => omega
    | succ n => cases b <;> simp [strncmp]
  | cons c cs ih =>
    cases n with
    | zero => omega
    | succ n =>
      cases b with
      | nil => simp [strncmp]
      | cons d ds =>
        simp only [List.length_cons] at h
        by_cases hcd : c = d
        · subst hcd
          simp [strncmp, ih ds n (by omega)]
        · simp only [strncmp, ne_eq, hcd, not_false_eq_true, if_true, List.cons.injEq, false_and,
            iff_false]
          split <;> decide

theorem strchr_eq_none_iff (e : List Char) (c : Char) : strchr e c = none ↔ c ∉ e := by
  induction e with
  | nil => simp [strchr]
  | cons x xs ih =>
    by_cases h : x = c
    · simp [strchr, h]
    · have h' : ¬ c = x := fun hc => h hc.symm
      simp [strchr, h, h', ih]

theorem strsep_colon (e : List Char) :
    strsep e ':' = (name_half e, if ':' ∈ e then some (number_half e) else none) := by
  induction e with
  | nil => simp [strsep, name_half, number_half]
  | cons x xs ih =>
    by_cases h : x = ':'
    · simp [strsep, name_half, number_half, h]
    · have h' : ¬ ':' = x := fun hc => h hc.symm
      simp only [strsep, h, if_false, ih, name_half, number_half]
      simp [h, h', List.takeWhile, List.dropWhile]

/-! ## The gpios loop -/

/-- The first entry of a gpios list that is not well formed, and the `return`
it leads to. -/
theorem gpios_loop_eq (k : Kernel) (es : List (List Char)) (i : Nat) (buf : List fbtft_gpio) :
    gpios_loop k es i buf =
      ((match es.dropWhile (gpio_entry_ok k) with
        | [] => none
        | e :: _ =>
          some (if ':' ∈ e then Outcome.gpios_bad_number else Outcome.gpios_missing_colon)),
       store_bindings buf i ((es.takeWhile (gpio_entry_ok k)).map (gpio_of_entry k))) := by
  induction es generalizing i buf with
  | nil => simp [gpios_loop, store_bindings]
  | cons e es ih =>
    by_cases hc : ':' ∈ e
    · have h1 : ∃ t, strchr e ':' = some t := by
        cases hs : strchr e ':' with
        | none => exact absurd hc ((strchr_eq_none_iff e ':').1 hs)
        | some t => exact ⟨t, rfl⟩
      obtain ⟨t, ht⟩ := h1
      cases hk : kstrtol k.KSTRTOLL_STRICT k.BITS_PER_LONG (number_half e) 10 with
      | error err =>
        have hbad : gpio_entry_ok k e = false := by
          simp [gpio_entry_ok, parsed_number, hk]
        simp [gpios_loop, ht, strsep_colon, hc, hk, List.dropWhile, List.takeWhile, hbad,
          store_bindings]
      | ok val =>
        have hgood : gpio_entry_ok k e = true := by
          simp [gpio_entry_ok, parsed_number, hk, hc]
        simp [gpios_loop, ht, strsep_colon, hc, hk, List.dropWhile, List.takeWhile, hgood,
          store_bindings, ih, gpio_of_entry, parsed_number]
    · have h1 : strchr e ':' = none := (strchr_eq_none_iff e ':').2 hc
      have hbad : gpio_entry_ok k e = false := by
        simp [gpio_entry_ok, hc]
      simp [gpios_loop, h1, List.dropWhile, List.takeWhile, hbad, store_bindings, hc]

theorem gpios_loop_all_ok (k : Kernel) (es : List (List Char)) (i : Nat) (buf : List fbtft_gpio)
    (h : ∀ e ∈ es, gpio_entry_ok k e = true) :
    gpios_loop k es i buf = (none, store_bindings buf i (es.map (gpio_of_entry k))) := by
  rw [gpios_loop_eq]
  have h1 : es.dropWhile (gpio_entry_ok k) = [] := by
    rw [List.dropWhile_eq_nil_iff]
    exact h
  have h2 : es.takeWhile (gpio_entry_ok k) = es := by
    rw [List.takeWhile_eq_self_iff]
    exact h
  rw [h1, h2]

theorem gpios_loop_some_bad (k : Kernel) (es : List (List Char)) (i : Nat) (buf : List fbtft_gpio)
    (h : ∃ e ∈ es, gpio_entry_ok k e = false) :
    ∃ err, (gpios_loop k es i buf).1 = some err ∧
      (err = Outcome.gpios_bad_number ∨ err = Outcome.gpios_missing_colon) := by
  rw [gpios_loop_eq]
  cases hd : es.dropWhile (gpio_entry_ok k) with
  | nil =>
    rw [List.dropWhile_eq_nil_iff] at hd
    obtain ⟨e, he, hbad⟩ := h
    rw [hd e he] at hbad
    exact absurd hbad (by decide)
  | cons e rest =>
    by_cases hc : ':' ∈ e
    · exact ⟨_, rfl, Or.inl (by simp [hc])⟩
    · exact ⟨_, rfl, Or.inr (by simp [hc])⟩

theorem store_bindings_length (gs : List fbtft_gpio) (i : Nat) (buf : List fbtft_gpio) :
    (store_bindings buf i gs).length = buf.length := by
  induction gs generalizing i buf with
  | nil => rfl
  | cons g gs ih => simp [store_bindings, ih]

theorem store_bindings_eq (gs : List fbtft_gpio) (i : Nat) (buf : List fbtft_gpio)
    (h : i + gs.length ≤ buf.length) :
    store_bindings buf i gs = buf.take i ++ gs ++ buf.drop (i + gs.length) := by
  induction gs generalizing i buf with
  | nil => simp [store_bindings]
  | cons g gs ih =>
    simp only [List.length_cons] at h
    have hi : i < buf.length := by omega
    rw [store_bindings, ih (i + 1) (buf.set i g) (by simp; omega)]
    have hlen : (buf.take i).length = i := by
      rw [List.length_take]
      omega
    have ht : (buf.set i g).take (i + 1) = buf.take i ++ [g] := by
      rw [List.set_eq_take_append_cons_drop, if_pos hi, List.take_append_eq_append_take, hlen]
      simp [List.take_take]
    have hd : (buf.set i g).drop (i + 1 + gs.length) = buf.drop (i + (gs.length + 1)) := by
      rw [List.drop_set_of_lt g buf (by omega)]
      congr 1
      omega
    rw [ht, hd]
    simp

/-! ## Reading back a printed number -/

theorem digit_value_digit : ∀ d : Nat, d < 10 →
    digit_value (Char.ofNat ('0'.toNat + d)) = some d := by
  decide

theorem digit_ne_sign : ∀ d : Nat, d < 10 →
    Char.ofNat ('0'.toNat + d) ≠ '+' ∧ Char.ofNat ('0'.toNat + d) ≠ '-' := by
  decide

theorem parse_integer_utoa_aux (fuel n : Nat) (acc : List Char) (rv : Nat) (h : n < fuel) :
    ∃ rv', rv < rv' ∧
      parse_integer 10 (utoa_aux fuel n acc) 0 rv = parse_integer 10 acc n rv' := by
  induction fuel generalizing n acc rv with
  | zero => omega
  | succ fuel ih =>
    have hd : n % 10 < 10 := Nat.mod_lt _ (by decide)
    by_cases h0 : n / 10 = 0
    · have hn : n % 10 = n := by omega
      refine ⟨rv + 1, by omega, ?_⟩
      have hge : ¬ n % 10 ≥ 10 := by omega
      simp only [utoa_aux, h0, if_true, parse_integer, digit_value_digit _ hd, hge, if_false]
      rw [hn, Nat.zero_mul, Nat.zero_add]
    · obtain ⟨rv', hrv, heq⟩ := ih (n / 10) (Char.ofNat ('0'.toNat + n % 10) :: acc) rv (by omega)
      refine ⟨rv' + 1, by omega, ?_⟩
      simp only [utoa_aux, h0, if_false]
      rw [heq]
      have hn : n / 10 * 10 + n % 10 = n := by omega
      have hge : ¬ n % 10 ≥ 10 := by omega
      simp only [parse_integer, digit_value_digit _ hd, hge, if_false, hn]

theorem utoa_aux_head (fuel n : Nat) (acc : List Char) (h : n < fuel) :
    ∃ d, d < 10 ∧ (utoa_aux fuel n acc).head? = some (Char.ofNat ('0'.toNat + d)) := by
  induction fuel generalizing n acc with
  | zero => omega
  | succ fuel ih =>
    by_cases h0 : n / 10 = 0
    · exact ⟨n % 10, Nat.mod_lt _ (by decide), by simp [utoa_aux, h0]⟩
    · obtain ⟨d, hd, hh⟩ := ih (n / 10) (Char.ofNat ('0'.toNat + n % 10) :: acc) (by omega)
      exact ⟨d, hd, by simp only [utoa_aux, h0, if_false]; exact hh⟩

theorem kstrtoull_digits_utoa (n : Nat) (h : n < 2 ^ 64) :
    kstrtoull_digits (utoa n) 10 = .ok n := by
  obtain ⟨rv', hrv, heq⟩ := parse_integer_utoa_aux (n + 1) n [] 0 (by omega)
  have h1 : ¬ n ≥ 2 ^ 64 := by omega
  have h2 : ¬ rv' = 0 := by omega
  simp only [kstrtoull_digits, utoa, heq, parse_integer, h1, h2, if_false, List.head?_nil]
  simp

theorem utoa_head_ne_sign (n : Nat) :
    (utoa n).head? ≠ some '+' ∧ (utoa n).head? ≠ some '-' := by
  obtain ⟨d, hd, hh⟩ := utoa_aux_head (n + 1) n [] (by omega)
  have hs := digit_ne_sign d hd
  rw [utoa, hh]
  exact ⟨fun h => hs.1 (Option.some.inj h), fun h => hs.2 (Option.some.inj h)⟩

/-- The kernel's `kstrtol` reads the `%d` text of a 32-bit number back. -/
theorem kstrtol_itoa (strict : Bool) (bits : Nat) (v : Int) (hbits : 32 ≤ bits)
    (hlo : -(2 ^ 31 : Int) ≤ v) (hhi : v < (2 ^ 31 : Int)) :
    kstrtol strict bits (itoa v) 10 = .ok v := by
  have hpow : (2 ^ 31 : Int) ≤ 2 ^ (bits - 1) :=
    pow_le_pow_right₀ (by decide) (by omega)
  by_cases hneg : v < 0
  · have habs : (v.natAbs : Int) = -v := by omega
    have hn : v.natAbs < 2 ^ 64 := by omega
    have h63 : ¬ (v.natAbs > 2 ^ 63 ∨ (strict = true ∧ v.natAbs = 0)) := by omega
    have hv : -(v.natAbs : Int) = v := by omega
    simp only [kstrtol, kstrtoll, itoa, hneg, if_true, List.head?_cons, List.tail_cons,
      kstrtoull_digits_utoa _ hn, h63, if_false, hv]
    rw [if_pos ⟨by omega, by omega⟩]
  · have habs : (v.natAbs : Int) = v := by omega
    have hn : v.natAbs < 2 ^ 64 := by omega
    have h63 : ¬ v.natAbs ≥ 2 ^ 63 := by omega
    have hs := utoa_head_ne_sign v.natAbs
    simp only [kstrtol, kstrtoll, kstrtoull, itoa, hneg, if_false, hs.1, hs.2,
      kstrtoull_digits_utoa _ hn, h63, habs]
    rw [if_pos ⟨by omega, by omega⟩]

theorem int_cast_of_int32 (v : Int) (hlo : -(2 ^ 31 : Int) ≤ v) (hhi : v < (2 ^ 31 : Int)) :
    int_cast v = v := by
  unfold int_cast
  omega

/-! ## The course of `fbtft_device_init` -/

theorem name_half_append (n t : List Char) (h : ':' ∉ n) : name_half (n ++ ':' :: t) = n := by
  induction n with
  | nil => simp [name_half]
  | cons c cs ih =>
    have hc : c ≠ ':' := fun hc => h (by simp [hc])
    have hcs : ':' ∉ cs := fun hm => h (List.mem_cons_of_mem _ hm)
    have := ih hcs
    simpa [name_half, List.takeWhile, hc] using this

theorem number_half_append (n t : List Char) (h : ':' ∉ n) :
    number_half (n ++ ':' :: t) = t := by
  induction n with
  | nil => simp [number_half]
  | cons c cs ih =>
    have hc : c ≠ ':' := fun hc => h (by simp [hc])
    have hcs : ':' ∉ cs := fun hm => h (List.mem_cons_of_mem _ hm)
    have := ih hcs
    simpa [number_half, List.dropWhile, hc] using this

/-- With counts in range and all gpios entries well formed, `fbtft_device_init`
gets past the gpios loop with all bindings stored. -/
theorem init_of_valid (k : Kernel) (p : Params) (s : State)
    (hinit : p.init.length ≤ k.FBTFT_MAX_INIT_SEQUENCE) (hnum : p.gpios.length ≤ MAX_GPIOS)
    (hok : ∀ e ∈ p.gpios, gpio_entry_ok k e = true) :
    fbtft_device_init k p s =
      init_after_gpios k p
        (if p.gpios.length > 0 then
          some (store_bindings s.fbtft_device_param_gpios 0 (p.gpios.map (gpio_of_entry k)))
         else none)
        { s with fbtft_device_param_gpios :=
            store_bindings s.fbtft_device_param_gpios 0 (p.gpios.map (gpio_of_entry k)) } := by
  have h1 : ¬ p.init.length > k.FBTFT_MAX_INIT_SEQUENCE := by omega
  have h2 : ¬ p.gpios.length > MAX_GPIOS := by omega
  simp only [fbtft_device_init, h1, h2, if_false, gpios_loop_all_ok k p.gpios 0 _ hok]

/-- A rejected `init` or `gpios` parameter: the `return` is one of those of lines
603-634 and only `fbtft_device_param_gpios` may have changed. -/
theorem init_of_invalid (k : Kernel) (p : Params) (s : State)
    (h : p.init.length > k.FBTFT_MAX_INIT_SEQUENCE ∨ p.gpios.length > MAX_GPIOS ∨
      ∃ e ∈ p.gpios, gpio_entry_ok k e = false) :
    (fbtft_device_init k p s).1.invalid_parameter = true ∧
    (fbtft_device_init k p s).1 ≠ Outcome.gpios_something_bad ∧
    (fbtft_device_init k p s).2.displays = s.displays ∧
    (fbtft_device_init k p s).2.spi_bus = s.spi_bus ∧
    (fbtft_device_init k p s).2.platform_bus = s.platform_bus ∧
    (fbtft_device_init k p s).2.spi_device = s.spi_device ∧
    (fbtft_device_init k p s).2.p_device = s.p_device := by
  by_cases h1 : p.init.length > k.FBTFT_MAX_INIT_SEQUENCE
  · simp [fbtft_device_init, h1, Outcome.invalid_parameter]
  by_cases h2 : p.gpios.length > MAX_GPIOS
  · simp [fbtft_device_init, h1, h2, Outcome.invalid_parameter]
  have h3 : ∃ e ∈ p.gpios, gpio_entry_ok k e = false := by
    rcases h with h | h | h
    · exact absurd h h1
    · exact absurd h h2
    · exact h
  obtain ⟨err, herr, hkind⟩ := gpios_loop_some_bad k p.gpios 0 s.fbtft_device_param_gpios h3
  have hpair : gpios_loop k p.gpios 0 s.fbtft_device_param_gpios =
      (some err, (gpios_loop k p.gpios 0 s.fbtft_device_param_gpios).2) := by
    rw [← herr]
  simp only [fbtft_device_init, h1, h2, if_false]
  rw [hpair]
  rcases hkind with hk | hk <;> simp [hk, Outcome.invalid_parameter]

theorem invalid_parameter_ret (o : Outcome) (h : o.invalid_parameter = true) :
    o.ret = some (-EINVAL) := by
  cases o <;> simp_all [Outcome.invalid_parameter, Outcome.ret]

theorem fbtft_device_delete_frame (master : spi_master) (cs : Nat) (s : State) :
    (fbtft_device_delete master cs s).displays = s.displays ∧
    (fbtft_device_delete master cs s).fbtft_device_param_gpios = s.fbtft_device_param_gpios ∧
    (fbtft_device_delete master cs s).platform_bus = s.platform_bus ∧
    (fbtft_device_delete master cs s).spi_device = s.spi_device ∧
    (fbtft_device_delete master cs s).p_device = s.p_device := by
  simp only [fbtft_device_delete]
  split <;> simp

theorem init_matched_frame (k : Kernel) (p : Params) (rotate : Nat)
    (gpio : Option (List fbtft_gpio)) (i : Nat) (d : fbtft_device_display) (s : State) :
    (init_matched k p rotate gpio i d s).1.invalid_parameter = false ∧
    (init_matched k p rotate gpio i d s).2.fbtft_device_param_gpios =
      s.fbtft_device_param_gpios := by
  simp only [init_matched]
  have hd := fbtft_device_delete_frame
  split
  · split
    · simp [Outcome.invalid_parameter]
    · split <;> simp [Outcome.invalid_parameter, hd]
  · split
    · split <;> simp [Outcome.invalid_parameter]
    · simp [Outcome.invalid_parameter]

theorem init_after_gpios_frame (k : Kernel) (p : Params) (gpio : Option (List fbtft_gpio))
    (s : State) :
    (init_after_gpios k p gpio s).1.invalid_parameter = false ∧
    (init_after_gpios k p gpio s).2.fbtft_device_param_gpios = s.fbtft_device_param_gpios := by
  simp only [init_after_gpios]
  split
  · simp [Outcome.invalid_parameter]
  · split
    · simp [Outcome.invalid_parameter]
    · split
      · simp [Outcome.invalid_parameter]
      · split
        · exact init_matched_frame _ _ _ _ _ _ _
        · simp [Outcome.invalid_parameter]


theorem init_after_gpios_list (k : Kernel) (p : Params) (gpio : Option (List fbtft_gpio))
    (s : State) (hname : p.name = some "list".toList) :
    init_after_gpios k p gpio s = (Outcome.canceled, s) := by
  simp only [init_after_gpios, hname, strncmp_self, if_true]

theorem exists_bad_of_not_all_ok (k : Kernel) (es : List (List Char))
    (h : ¬ ∀ e ∈ es, gpio_entry_ok k e = true) : ∃ e ∈ es, gpio_entry_ok k e = false := by
  push_neg at h
  obtain ⟨e, he, hb⟩ := h
  exact ⟨e, he, by simpa using hb⟩

theorem kstrtol_nil (strict : Bool) (bits : Nat) :
    kstrtol strict bits [] 10 = .error (-EINVAL) := by
  simp [kstrtol, kstrtoll, kstrtoull, kstrtoull_digits, parse_integer]

theorem gpio_bindings_append (gs rest : List fbtft_gpio) (h : ∀ g ∈ gs, g.name ≠ []) :
    gpio_bindings (gs ++ gpio_end :: rest) = gs := by
  induction gs with
  | nil => simp [gpio_bindings, gpio_end]
  | cons g gs ih =>
    have hg : g.name ≠ [] := h g (by simp)
    have := ih (fun g' hg' => h g' (List.mem_cons_of_mem _ hg'))
    simpa [gpio_bindings, List.takeWhile, hg] using this

/-- What the search of the `displays` loop returns: the first entry whose name
`strncmp` finds equal, with its index. -/
theorem displays_lookup_iff (name : List Char) (ds : List fbtft_device_display) (i j : Nat)
    (d : fbtft_device_display) :
    displays_lookup name ds i = some (j, d) ↔
      ∃ n, j = i + n ∧ ds[n]? = some d ∧ strncmp name d.name 32 = 0 ∧
        ∀ m, m < n → ∀ d', ds[m]? = some d' → strncmp name d'.name 32 ≠ 0 := by
  induction ds generalizing i with
  | nil => simp [displays_lookup]
  | cons x xs ih =>
    by_cases hx : strncmp name x.name 32 = 0
    · simp only [displays_lookup, hx, if_true, Option.some.injEq, Prod.mk.injEq]
      constructor
      · rintro ⟨rfl, rfl⟩
        exact ⟨0, rfl, by simp, hx, fun m hm => absurd hm (Nat.not_lt_zero m)⟩
      · rintro ⟨n, hj, hn, _, hfirst⟩
        cases n with
        | zero =>
          simp only [List.getElem?_cons_zero, Option.some.injEq] at hn
          exact ⟨by omega, hn⟩
        | succ n => exact absurd hx (hfirst 0 (Nat.succ_pos n) x (by simp))
    · simp only [displays_lookup, hx, if_false, ih (i + 1)]
      constructor
      · rintro ⟨n, hj, hn, hz, hfirst⟩
        refine ⟨n + 1, by omega, by simpa using hn, hz, ?_⟩
        intro m hm d' hd'
        cases m with
        | zero =>
          simp only [List.getElem?_cons_zero, Option.some.injEq] at hd'
          rw [← hd']
          exact hx
        | succ m => exact hfirst m (by omega) d' (by simpa using hd')
      · rintro ⟨n, hj, hn, hz, hfirst⟩
        cases n with
        | zero =>
          simp only [List.getElem?_cons_zero, Option.some.injEq] at hn
          rw [← hn] at hz
          exact absurd hz hx
        | succ n =>
          refine ⟨n, by omega, by simpa using hn, hz, ?_⟩
          intro m hm d' hd'
          exact hfirst (m + 1) (by omega) d' (by simpa using hd')

theorem displays_lookup_eq_none_iff (name : List Char) (ds : List fbtft_device_display)
    (i : Nat) :
    displays_lookup name ds i = none ↔ ∀ d ∈ ds, strncmp name d.name 32 ≠ 0 := by
  induction ds generalizing i with
  | nil => simp [displays_lookup]
  | cons x xs ih =>
    by_cases hx : strncmp name x.name 32 = 0
    · simp [displays_lookup, hx]
    · simp [displays_lookup, hx, ih (i + 1)]

/-- Storing at the matched index an entry of the same name does not change what
the search finds. -/
theorem displays_lookup_set (name : List Char) (ds : List fbtft_device_display) (i : Nat)
    (d d' : fbtft_device_display) (h : displays_lookup name ds 0 = some (i, d))
    (hname : d'.name = d.name) :
    displays_lookup name (ds.set i d') 0 = some (i, d') := by
  rw [displays_lookup_iff] at h ⊢
  obtain ⟨n, hj, hn, hz, hfirst⟩ := h
  have hin : i = n := by omega
  subst hin
  have hlt : i < ds.length := by
    by_contra hge
    rw [List.getElem?_eq_none (by omega)] at hn
    exact absurd hn (by simp)
  refine ⟨i, hj, by simp [hlt], by rw [hname]; exact hz, ?_⟩
  intro m hm e he
  rw [List.getElem?_set_ne (by omega)] at he
  exact hfirst m hm e he

theorem displays_names_short : ∀ d ∈ displays, d.name.length < 32 := by
  decide


theorem displays_lookup_exact (name : List Char) (i : Nat) (d : fbtft_device_display) :
    displays_lookup name displays 0 = some (i, d) ↔
      displays[i]? = some d ∧ d.name = name ∧
        ∀ j, j < i → ∀ d', displays[j]? = some d' → d'.name ≠ name := by
  have hshort : ∀ (j : Nat) (d' : fbtft_device_display), displays[j]? = some d' →
      (strncmp name d'.name 32 = 0 ↔ name = d'.name) :=
    fun j d' hd' => strncmp_eq_zero_iff name d'.name 32
      (displays_names_short d' (List.getElem?_mem hd'))
  rw [displays_lookup_iff]
  constructor
  · rintro ⟨n, hj, hn, hz, hfirst⟩
    have hin : i = n := by omega
    subst hin
    refine ⟨hn, ((hshort i d hn).1 hz).symm, ?_⟩
    intro j hji d' hd' hnm
    exact hfirst j hji d' hd' ((hshort j d' hd').2 hnm.symm)
  · rintro ⟨hn, hnm, hfirst⟩
    refine ⟨i, by omega, hn, (hshort i d hn).2 hnm.symm, ?_⟩
    intro m hm d' hd' hz
    exact hfirst m hm d' hd' ((hshort m d' hd').1 hz).symm

theorem displays_lookup_none_exact (name : List Char) :
    displays_lookup name displays 0 = none ↔ ∀ d ∈ displays, d.name ≠ name := by
  rw [displays_lookup_eq_none_iff]
  constructor
  · intro h d hd hnm
    exact h d hd ((strncmp_eq_zero_iff name d.name 32 (displays_names_short d hd)).2 hnm.symm)
  · intro h d hd hz
    exact h d hd ((strncmp_eq_zero_iff name d.name 32 (displays_names_short d hd)).1 hz).symm

theorem init_matched_supported (k : Kernel) (p : Params) (rotate : Nat)
    (gpio : Option (List fbtft_gpio)) (i : Nat) (d : fbtft_device_display) (s : State) :
    (init_matched k p rotate gpio i d s).1 ≠ Outcome.display_not_supported := by
  simp only [init_matched]
  split
  · split
    · simp
    · split <;> simp
  · split
    · split <;> simp
    · simp

/-- The course of `fbtft_device_init` for a name other than `"list"` without the
`custom` argument, once the parameters are accepted. -/
theorem init_of_valid_named (k : Kernel) (p : Params) (s : State) (name : List Char)
    (hcustom : p.custom = false) (hname : p.name = some name) (hlist : name ≠ "list".toList)
    (hinit : p.init.length ≤ k.FBTFT_MAX_INIT_SEQUENCE) (hnum : p.gpios.length ≤ MAX_GPIOS)
    (hok : ∀ e ∈ p.gpios, gpio_entry_ok k e = true) :
    fbtft_device_init k p s =
      match displays_lookup name s.displays 0 with
      | some (i, d) =>
        init_matched k p (rotate_checked p)
          (if p.gpios.length > 0 then
            some (store_bindings s.fbtft_device_param_gpios 0 (p.gpios.map (gpio_of_entry k)))
           else none) i d
          { s with fbtft_device_param_gpios :=
              store_bindings s.fbtft_device_param_gpios 0 (p.gpios.map (gpio_of_entry k)) }
      | none =>
        (Outcome.display_not_supported,
          { s with fbtft_device_param_gpios :=
              store_bindings s.fbtft_device_param_gpios 0 (p.gpios.map (gpio_of_entry k)) }) := by
  have hl : ¬ strncmp name "list".toList 32 = 0 := by
    rw [strncmp_eq_zero_iff name "list".toList 32 (by decide)]
    exact hlist
  rw [init_of_valid k p s hinit hnum hok]
  simp only [init_after_gpios, hname, hl, if_false, hcustom, rotate_checked]
  rfl

theorem invalid_parameter_not_merged (o : Outcome) (h : o.invalid_parameter = true) :
    o.merged = false := by
  cases o <;> simp_all [Outcome.invalid_parameter, Outcome.merged]

/-- Behind the override merging, the matched entry is stored back with the
merged platform data and its name unchanged. -/
theorem init_matched_merged (k : Kernel) (p : Params) (rotate : Nat)
    (gpio : Option (List fbtft_gpio)) (i : Nat) (d : fbtft_device_display) (s : State)
    (hm : (init_matched k p rotate gpio i d s).1.merged = true) :
    ∃ pd0 d1, d.pdata = some pd0 ∧
      (init_matched k p rotate gpio i d s).2.displays = s.displays.set i d1 ∧
      d1.name = d.name ∧ d1.pdata = some (override_merge p rotate gpio pd0) := by
  have hd := fbtft_device_delete_frame
  simp only [init_matched] at hm ⊢
  cases hspi : d.spi with
  | some spi0 =>
    simp only [hspi] at hm ⊢
    cases hmaster : k.spi_busnum_to_master p.busnum with
    | none => simp [hmaster, Outcome.merged] at hm
    | some master =>
      simp only [hmaster]
      refine ⟨spi0.platform_data, { d with spi := some (spi_configure p rotate gpio spi0) },
        by simp [fbtft_device_display.pdata, hspi], ?_, rfl,
        by simp [fbtft_device_display.pdata, spi_configure]⟩
      split <;> simp [hd]
  | none =>
    simp only [hspi] at hm ⊢
    cases hpdev : d.pdev with
    | none => simp [hpdev, Outcome.merged] at hm
    | some pdev0 =>
      simp only [hpdev]
      refine ⟨pdev0.platform_data,
        { d with pdev := some { pdev0 with
            platform_data := override_merge p rotate gpio pdev0.platform_data } },
        by simp [fbtft_device_display.pdata, hspi, hpdev], ?_, rfl,
        by simp [fbtft_device_display.pdata, hspi]⟩
      split <;> simp [hspi]

theorem init_after_gpios_no_name (k : Kernel) (p : Params) (gpio : Option (List fbtft_gpio))
    (s : State) (hname : p.name = none) :
    init_after_gpios k p gpio s = (Outcome.missing_name, s) := by
  simp only [init_after_gpios, hname]

theorem init_after_gpios_oops (k : Kernel) (p : Params) (gpio : Option (List fbtft_gpio))
    (s : State) (name : List Char) (hname : p.name = some name)
    (hlist : name ≠ "list".toList)
    (hins : (if p.custom then custom_install p name s.displays else some s.displays) = none) :
    init_after_gpios k p gpio s = (Outcome.oops, s) := by
  have hl : ¬ strncmp name "list".toList 32 = 0 := by
    rw [strncmp_eq_zero_iff name "list".toList 32 (by decide)]
    exact hlist
  simp only [init_after_gpios, hname, hl, if_false, hins]

theorem init_after_gpios_installed (k : Kernel) (p : Params) (gpio : Option (List fbtft_gpio))
    (s : State) (name : List Char) (ds : List fbtft_device_display) (hname : p.name = some name)
    (hlist : name ≠ "list".toList)
    (hins : (if p.custom then custom_install p name s.displays else some s.displays) = some ds) :
    init_after_gpios k p gpio s =
      match displays_lookup name ds 0 with
      | some (i, d) => init_matched k p (rotate_checked p) gpio i d { s with displays := ds }
      | none => (Outcome.display_not_supported, { s with displays := ds }) := by
  have hl : ¬ strncmp name "list".toList 32 = 0 := by
    rw [strncmp_eq_zero_iff name "list".toList 32 (by decide)]
    exact hlist
  simp only [init_after_gpios, hname, hl, if_false, hins, rotate_checked]

/-- Behind the override merging: the name was found in the catalog (after the
custom installation, if any), at an index where the final catalog has the same
entry with the merged platform data. -/
theorem init_after_gpios_merged (k : Kernel) (p : Params) (gpio : Option (List fbtft_gpio))
    (s : State) (hm : (init_after_gpios k p gpio s).1.merged = true) :
    ∃ name ds i d0 pd0 d1,
      p.name = some name ∧
      (if p.custom then custom_install p name s.displays else some s.displays) = some ds ∧
      displays_lookup name ds 0 = some (i, d0) ∧ d0.pdata = some pd0 ∧
      displays_lookup name (init_after_gpios k p gpio s).2.displays 0 = some (i, d1) ∧
      d1.pdata = some (override_merge p (rotate_checked p) gpio pd0) := by
  cases hname : p.name with
  | none =>
    rw [init_after_gpios_no_name _ _ _ _ hname] at hm
    simp [Outcome.merged] at hm
  | some name =>
    by_cases hl : name = "list".toList
    · rw [init_after_gpios_list _ _ _ _ (hl ▸ hname)] at hm
      simp [Outcome.merged] at hm
    · cases hins : (if p.custom then custom_install p name s.displays else some s.displays) with
      | none =>
        rw [init_after_gpios_oops _ _ _ _ name hname hl hins] at hm
        simp [Outcome.merged] at hm
      | some ds =>
        rw [init_after_gpios_installed _ _ _ _ name ds hname hl hins] at hm ⊢
        cases hlook : displays_lookup name ds 0 with
        | none =>
          rw [hlook] at hm
          simp [Outcome.merged] at hm
        | some r =>
          obtain ⟨i, d0⟩ := r
          rw [hlook] at hm
          simp only at hm ⊢
          obtain ⟨pd0, d1, hpd0, hset, hnm, hpd1⟩ := init_matched_merged _ _ _ _ _ _ _ hm
          refine ⟨name, ds, i, d0, pd0, d1, rfl, hins, hlook, hpd0, ?_, hpd1⟩
          rw [hset]
          exact displays_lookup_set name ds i d0 d1 hlook hnm

theorem init_merged (k : Kernel) (p : Params) (s : State)
    (hm : (fbtft_device_init k p s).1.merged = true) :
    ∃ name ds i d0 pd0 d1,
      p.name = some name ∧
      (if p.custom then custom_install p name s.displays else some s.displays) = some ds ∧
      displays_lookup name ds 0 = some (i, d0) ∧ d0.pdata = some pd0 ∧
      displays_lookup name (fbtft_device_init k p s).2.displays 0 = some (i, d1) ∧
      d1.pdata = some (override_merge p (rotate_checked p)
        (if p.gpios.length > 0 then some (fbtft_device_init k p s).2.fbtft_device_param_gpios
         else none) pd0) := by
  by_cases hv : p.init.length ≤ k.FBTFT_MAX_INIT_SEQUENCE ∧ p.gpios.length ≤ MAX_GPIOS ∧
      ∀ e ∈ p.gpios, gpio_entry_ok k e = true
  · obtain ⟨h1, h2, h3⟩ := hv
    rw [init_of_valid k p s h1 h2 h3] at hm ⊢
    rw [(init_after_gpios_frame _ _ _ _).2]
    exact init_after_gpios_merged _ _ _ _ hm
  · have hbad : p.init.length > k.FBTFT_MAX_INIT_SEQUENCE ∨ p.gpios.length > MAX_GPIOS ∨
        ∃ e ∈ p.gpios, gpio_entry_ok k e = false := by
      by_cases h1 : p.init.length ≤ k.FBTFT_MAX_INIT_SEQUENCE
      · by_cases h2 : p.gpios.length ≤ MAX_GPIOS
        · exact Or.inr (Or.inr (exists_bad_of_not_all_ok k _ (fun h3 => hv ⟨h1, h2, h3⟩)))
        · exact Or.inr (Or.inl (by omega))
      · exact Or.inl (by omega)
    have := invalid_parameter_not_merged _ (init_of_invalid k p s hbad).1
    rw [this] at hm
    exact absurd hm (by decide)

/-- The custom installation on the catalog as built rewrites the last entry
(index 22) into `custom_slot`. -/
theorem custom_install_displays (p : Params) (name : List Char) :
    custom_install p name displays = some (displays.set 22 (custom_slot p name)) := by
  have hlen : displays.length - 1 = 22 := by decide
  have hget : displays.get? 22 =
      some { name := [],
             spi := some { modalias := [], max_speed_hz := 0, mode := SPI_MODE_0,
                           platform_data := { gpios := [gpio_end] } },
             pdev := some { name := [], id := 0, platform_data := { gpios := [gpio_end] } } } := by
    decide
  simp only [custom_install, hlen, hget, custom_slot]
  by_cases h : p.speed = 0
  · simp only [h, if_true]
  · simp only [h, if_false]

theorem custom_slot_name (p : Params) (name : List Char) : (custom_slot p name).name = name := by
  unfold custom_slot
  split <;> rfl

/-- With `custom` and a name that no built-in entry carries, the search ends at
the custom slot, which has the `spi` template exactly when `speed` is non-zero
and the `pdev` template exactly when `speed` is zero. -/
theorem custom_slot_resolved (p : Params) (name : List Char)
    (hfree : ∀ d ∈ displays.take 22, d.name ≠ name) :
    custom_install p name displays = some (displays.set 22 (custom_slot p name)) ∧
    displays_lookup name (displays.set 22 (custom_slot p name)) 0 =
      some (22, custom_slot p name) ∧
    ((custom_slot p name).spi.isSome = true ↔ p.speed ≠ 0) ∧
    ((custom_slot p name).pdev.isSome = true ↔ p.speed = 0) := by
  refine ⟨custom_install_displays p name, ?_, ?_, ?_⟩
  · rw [displays_lookup_iff]
    refine ⟨22, rfl, by simp [displays], ?_, ?_⟩
    · rw [custom_slot_name]
      exact strncmp_self name 32
    · intro m hm d' hd'
      rw [List.getElem?_set_ne (by omega)] at hd'
      have hmem : d' ∈ displays.take 22 :=
        List.getElem?_mem (show (displays.take 22)[m]? = some d' by
          rw [List.getElem?_take_of_lt hm]
          exact hd')
      have hne := hfree d' hmem
      intro hz
      exact hne ((strncmp_eq_zero_iff name d'.name 32
        (displays_names_short d' (List.mem_of_mem_take hmem))).1 hz).symm
  · by_cases h : p.speed = 0 <;> simp [h, custom_slot]
  · by_cases h : p.speed = 0 <;> simp [h, custom_slot]

/-- What the body of the `displays` loop does to the handles and the buses, by
outcome. -/
theorem init_matched_handles (k : Kernel) (p : Params) (rotate : Nat)
    (gpio : Option (List fbtft_gpio)) (i : Nat) (d : fbtft_device_display) (s : State) :
    ((init_matched k p rotate gpio i d s).1 = Outcome.registered →
      ((init_matched k p rotate gpio i d s).2.spi_device.isSome = true ∧
        (init_matched k p rotate gpio i d s).2.p_device = s.p_device) ∨
      ((init_matched k p rotate gpio i d s).2.spi_device = s.spi_device ∧
        (init_matched k p rotate gpio i d s).2.p_device.isSome = true)) ∧
    ((init_matched k p rotate gpio i d s).1 = Outcome.spi_new_device_failed →
      (init_matched k p rotate gpio i d s).2.spi_device = none ∧
      (init_matched k p rotate gpio i d s).2.p_device = s.p_device) ∧
    (∀ ret, (init_matched k p rotate gpio i d s).1 = Outcome.platform_device_register_failed ret →
      ret < 0 ∧ (init_matched k p rotate gpio i d s).2.spi_device = s.spi_device ∧
      (init_matched k p rotate gpio i d s).2.p_device.isSome = true) ∧
    ((init_matched k p rotate gpio i d s).1.merged = false →
      (init_matched k p rotate gpio i d s).2 = s) := by
  have hd := fbtft_device_delete_frame
  simp only [init_matched]
  split
  · split
    · simp [Outcome.merged]
    · split <;> simp [Outcome.merged, hd]
  · split
    · split
      · rename_i h
        simp [Outcome.merged, h]
      · simp [Outcome.merged]
    · simp [Outcome.merged]


theorem init_after_gpios_handles (k : Kernel) (p : Params) (gpio : Option (List fbtft_gpio))
    (s : State) :
    ((init_after_gpios k p gpio s).1 = Outcome.registered →
      ((init_after_gpios k p gpio s).2.spi_device.isSome = true ∧
        (init_after_gpios k p gpio s).2.p_device = s.p_device) ∨
      ((init_after_gpios k p gpio s).2.spi_device = s.spi_device ∧
        (init_after_gpios k p gpio s).2.p_device.isSome = true)) ∧
    ((init_after_gpios k p gpio s).1 = Outcome.spi_new_device_failed →
      (init_after_gpios k p gpio s).2.spi_device = none ∧
      (init_after_gpios k p gpio s).2.p_device = s.p_device) ∧
    (∀ ret, (init_after_gpios k p gpio s).1 = Outcome.platform_device_register_failed ret →
      ret < 0 ∧ (init_after_gpios k p gpio s).2.spi_device = s.spi_device ∧
      (init_after_gpios k p gpio s).2.p_device.isSome = true) ∧
    ((init_after_gpios k p gpio s).1.merged = false →
      (init_after_gpios k p gpio s).2.spi_device = s.spi_device ∧
      (init_after_gpios k p gpio s).2.p_device = s.p_device ∧
      (init_after_gpios k p gpio s).2.spi_bus = s.spi_bus ∧
      (init_after_gpios k p gpio s).2.platform_bus = s.platform_bus) := by
  cases hname : p.name with
  | none =>
    rw [init_after_gpios_no_name _ _ _ _ hname]
    simp
  | some name =>
    by_cases hl : name = "list".toList
    · rw [init_after_gpios_list _ _ _ _ (hl ▸ hname)]
      simp
    · cases hins : (if p.custom then custom_install p name s.displays else some s.displays) with
      | none =>
        rw [init_after_gpios_oops _ _ _ _ name hname hl hins]
        simp
      | some ds =>
        rw [init_after_gpios_installed _ _ _ _ name ds hname hl hins]
        cases hlook : displays_lookup name ds 0 with
        | none => simp
        | some r =>
          obtain ⟨i, d⟩ := r
          simp only
          obtain ⟨h1, h2, h3, h4⟩ := init_matched_handles k p (rotate_checked p) gpio i d
            { s with displays := ds }
          refine ⟨h1, h2, h3, ?_⟩
          intro hm
          rw [h4 hm]
          simp

/-- What `fbtft_device_init` does to the handles and the buses, by outcome. -/
theorem init_handles (k : Kernel) (p : Params) (s : State) :
    ((fbtft_device_init k p s).1 = Outcome.registered →
      ((fbtft_device_init k p s).2.spi_device.isSome = true ∧
        (fbtft_device_init k p s).2.p_device = s.p_device) ∨
      ((fbtft_device_init k p s).2.spi_device = s.spi_device ∧
        (fbtft_device_init k p s).2.p_device.isSome = true)) ∧
    ((fbtft_device_init k p s).1 = Outcome.spi_new_device_failed →
      (fbtft_device_init k p s).2.spi_device = none ∧
      (fbtft_device_init k p s).2.p_device = s.p_device) ∧
    (∀ ret, (fbtft_device_init k p s).1 = Outcome.platform_device_register_failed ret →
      ret < 0 ∧ (fbtft_device_init k p s).2.spi_device = s.spi_device ∧
      (fbtft_device_init k p s).2.p_device.isSome = true) ∧
    ((fbtft_device_init k p s).1.merged = false →
      (fbtft_device_init k p s).2.spi_device = s.spi_device ∧
      (fbtft_device_init k p s).2.p_device = s.p_device ∧
      (fbtft_device_init k p s).2.spi_bus = s.spi_bus ∧
      (fbtft_device_init k p s).2.platform_bus = s.platform_bus) := by
  by_cases hv : p.init.length ≤ k.FBTFT_MAX_INIT_SEQUENCE ∧ p.gpios.length ≤ MAX_GPIOS ∧
      ∀ e ∈ p.gpios, gpio_entry_ok k e = true
  · obtain ⟨h1, h2, h3⟩ := hv
    rw [init_of_valid k p s h1 h2 h3]
    exact init_after_gpios_handles _ _ _ _
  · have hbad : p.init.length > k.FBTFT_MAX_INIT_SEQUENCE ∨ p.gpios.length > MAX_GPIOS ∨
        ∃ e ∈ p.gpios, gpio_entry_ok k e = false := by
      by_cases h1 : p.init.length ≤ k.FBTFT_MAX_INIT_SEQUENCE
      · by_cases h2 : p.gpios.length ≤ MAX_GPIOS
        · exact Or.inr (Or.inr (exists_bad_of_not_all_ok k _ (fun h3 => hv ⟨h1, h2, h3⟩)))
        · exact Or.inr (Or.inl (by omega))
      · exact Or.inl (by omega)
    obtain ⟨hi, _, _, hsb, hpb, hsd, hpd⟩ := init_of_invalid k p s hbad
    have hnm := invalid_parameter_not_merged _ hi
    refine ⟨?_, ?_, ?_, fun _ => ⟨hsd, hpd, hsb, hpb⟩⟩
    · intro h
      rw [h] at hnm
      exact absurd hnm (by decide)
    · intro h
      rw [h] at hnm
      exact absurd hnm (by decide)
    · intro ret h
      rw [h] at hnm
      simp [Outcome.merged] at hnm

/-- A load attempt that got behind the override merging had its `init` and
`gpios` parameters accepted. -/
theorem init_merged_valid (k : Kernel) (p : Params) (s : State)
    (hm : (fbtft_device_init k p s).1.merged = true) :
    p.init.length ≤ k.FBTFT_MAX_INIT_SEQUENCE ∧ p.gpios.length ≤ MAX_GPIOS ∧
      ∀ e ∈ p.gpios, gpio_entry_ok k e = true := by
  by_contra hv
  have hbad : p.init.length > k.FBTFT_MAX_INIT_SEQUENCE ∨ p.gpios.length > MAX_GPIOS ∨
      ∃ e ∈ p.gpios, gpio_entry_ok k e = false := by
    by_cases h1 : p.init.length ≤ k.FBTFT_MAX_INIT_SEQUENCE
    · by_cases h2 : p.gpios.length ≤ MAX_GPIOS
      · exact Or.inr (Or.inr (exists_bad_of_not_all_ok k _ (fun h3 => hv ⟨h1, h2, h3⟩)))
      · exact Or.inr (Or.inl (by omega))
    · exact Or.inl (by omega)
  have := invalid_parameter_not_merged _ (init_of_invalid k p s hbad).1
  rw [this] at hm
  exact absurd hm (by decide)

theorem displays_set_custom (x : fbtft_device_display) :
    displays.set 22 x = displays.take 22 ++ [x] := by
  rw [List.set_eq_take_append_cons_drop, if_pos (by decide)]
  have : displays.drop (22 + 1) = [] := by decide
  rw [this]

/-- The device set after `fbtft_device_delete` on a bus whose device names are
pairwise distinct: the devices with another name than the computed address. -/
theorem fbtft_device_delete_spi_bus (master : spi_master) (cs : Nat) (s : State)
    (huniq : (s.spi_bus.map (fun dev => dev.name)).Nodup) :
    (fbtft_device_delete master cs s).spi_bus =
      s.spi_bus.filter (fun dev => decide (dev.name ≠ snprintf_name_dot_u 32 master.name cs)) := by
  simp only [fbtft_device_delete]
  cases hf : s.spi_bus.find? (fun dev => decide (dev.name = snprintf_name_dot_u 32 master.name cs)) with
  | none =>
    simp only
    rw [List.find?_eq_none] at hf
    symm
    rw [List.filter_eq_self]
    intro dev hdev
    simpa using hf dev hdev
  | some dev =>
    simp only
    have hmem : dev ∈ s.spi_bus := List.mem_of_find?_eq_some hf
    have hnm : dev.name = snprintf_name_dot_u 32 master.name cs := by
      simpa using List.find?_some hf
    have hnd : s.spi_bus.Nodup := List.Nodup.of_map _ huniq
    rw [List.Nodup.erase_eq_filter hnd]
    apply List.filter_congr
    intro x hx
    by_cases hxd : x = dev
    · simp [hxd, hnm]
    · have hne : x.name ≠ snprintf_name_dot_u 32 master.name cs := by
        intro hxn
        exact hxd (List.inj_on_of_nodup_map huniq hx hmem (hxn.trans hnm.symm))
      simp [hxd, hne]

theorem fbtft_device_delete_absent (master : spi_master) (cs : Nat) (s : State)
    (h : ∀ dev ∈ s.spi_bus, dev.name ≠ snprintf_name_dot_u 32 master.name cs) :
    fbtft_device_delete master cs s = s := by
  have hf : s.spi_bus.find?
      (fun dev => decide (dev.name = snprintf_name_dot_u 32 master.name cs)) = none := by
    rw [List.find?_eq_none]
    intro dev hdev
    simpa using h dev hdev
  simp only [fbtft_device_delete, hf]

/-- The course of `fbtft_device_init` for a name other than `"list"`, once the
parameters are accepted and the catalog `ds` is in place (after the custom
installation, if any). -/
theorem init_of_valid_installed (k : Kernel) (p : Params) (s : State) (name : List Char)
    (ds : List fbtft_device_display)
    (hinit : p.init.length ≤ k.FBTFT_MAX_INIT_SEQUENCE) (hnum : p.gpios.length ≤ MAX_GPIOS)
    (hok : ∀ e ∈ p.gpios, gpio_entry_ok k e = true)
    (hname : p.name = some name) (hlist : name ≠ "list".toList)
    (hins : (if p.custom then custom_install p name s.displays else some s.displays) = some ds) :
    fbtft_device_init k p s =
      match displays_lookup name ds 0 with
      | some (i, d) =>
        init_matched k p (rotate_checked p)
          (if p.gpios.length > 0 then
            some (store_bindings s.fbtft_device_param_gpios 0 (p.gpios.map (gpio_of_entry k)))
           else none) i d
          { s with displays := ds,
                   fbtft_device_param_gpios :=
                     store_bindings s.fbtft_device_param_gpios 0 (p.gpios.map (gpio_of_entry k)) }
      | none =>
        (Outcome.display_not_supported,
          { s with displays := ds,
                   fbtft_device_param_gpios :=
                     store_bindings s.fbtft_device_param_gpios 0
                       (p.gpios.map (gpio_of_entry k)) }) := by
  have hl : ¬ strncmp name "list".toList 32 = 0 := by
    rw [strncmp_eq_zero_iff name "list".toList 32 (by decide)]
    exact hlist
  rw [init_of_valid k p s hinit hnum hok]
  simp only [init_after_gpios, hname, hl, if_false, hins, rotate_checked]

theorem displays_lookup_mem (name : List Char) (ds : List fbtft_device_display) (i j : Nat)
    (d : fbtft_device_display) (h : displays_lookup name ds i = some (j, d)) : d ∈ ds := by
  rw [displays_lookup_iff] at h
  obtain ⟨n, _, hn, _, _⟩ := h
  exact List.getElem?_mem hn

/-- On the catalog as built the custom installation never dereferences NULL, and
every entry of the catalog in place for the search has a template. -/
theorem installed_has_template (p : Params) (name : List Char) :
    ∃ ds, (if p.custom then custom_install p name displays else some displays) = some ds ∧
      ∀ d ∈ ds, d.spi.isSome = true ∨ d.pdev.isSome = true := by
  have hbuilt : ∀ d ∈ displays, d.spi.isSome = true ∨ d.pdev.isSome = true := by decide
  by_cases hc : p.custom = true
  · refine ⟨displays.set 22 (custom_slot p name), by simp [hc, custom_install_displays], ?_⟩
    intro d hd
    rw [displays_set_custom, List.mem_append, List.mem_singleton] at hd
    rcases hd with hd | hd
    · exact hbuilt d (List.mem_of_mem_take hd)
    · rw [hd]
      by_cases h : p.speed = 0 <;> simp [custom_slot, h]
  · exact ⟨displays, by simp [hc], hbuilt⟩

theorem init_matched_not_broken (k : Kernel) (p : Params) (rotate : Nat)
    (gpio : Option (List fbtft_gpio)) (i : Nat) (d : fbtft_device_display) (s : State)
    (h : d.spi.isSome = true ∨ d.pdev.isSome = true) :
    (init_matched k p rotate gpio i d s).1 ≠ Outcome.broken_displays ∧
    (init_matched k p rotate gpio i d s).1 ≠ Outcome.oops := by
  simp only [init_matched]
  cases hspi : d.spi with
  | some spi0 =>
    simp only
    split
    · simp
    · split <;> simp
  | none =>
    cases hpdev : d.pdev with
    | some pdev0 =>
      simp only
      split <;> simp
    | none => simp [hspi, hpdev] at h

/-! ## The claims -/

/-- C1 (counterexample): a load attempt with name `"list"` and the gpios
parameter `oops` does not end with the Canceled outcome: it returns `-EINVAL`
from the gpios loop. -/
theorem C1_list_not_always_canceled :
    (fbtft_device_init kernel_ok { name := some "list".toList, gpios := ["oops".toList] }
      (state_at_load [] [])).1 = Outcome.gpios_missing_colon ∧
    (fbtft_device_init kernel_ok { name := some "list".toList, gpios := ["oops".toList] }
      (state_at_load [] [])).1.ret = some (-EINVAL) := by
  decide

/-- C1 (amended): a load attempt whose name is exactly `"list"` ends with the
Canceled outcome (`-ECANCELED`) whenever its `init` and `gpios` parameters pass
the checks that come first, and otherwise with the invalid-parameter error of
those checks; in either case it registers no device, deletes no device, leaves
the handles as they were and changes no descriptor. -/
theorem C1_list_canceled (k : Kernel) (p : Params) (s : State)
    (hname : p.name = some "list".toList) :
    ((fbtft_device_init k p s).1 = Outcome.canceled ∨
      (fbtft_device_init k p s).1.invalid_parameter = true) ∧
    (p.init.length ≤ k.FBTFT_MAX_INIT_SEQUENCE → p.gpios.length ≤ MAX_GPIOS →
      (∀ e ∈ p.gpios, gpio_entry_ok k e = true) →
        (fbtft_device_init k p s).1 = Outcome.canceled ∧
        (fbtft_device_init k p s).1.ret = some (-ECANCELED)) ∧
    (fbtft_device_init k p s).2.spi_bus = s.spi_bus ∧
    (fbtft_device_init k p s).2.platform_bus = s.platform_bus ∧
    (fbtft_device_init k p s).2.spi_device = s.spi_device ∧
    (fbtft_device_init k p s).2.p_device = s.p_device ∧
    (fbtft_device_init k p s).2.displays = s.displays := by
  by_cases hv : p.init.length ≤ k.FBTFT_MAX_INIT_SEQUENCE ∧ p.gpios.length ≤ MAX_GPIOS ∧
      ∀ e ∈ p.gpios, gpio_entry_ok k e = true
  · obtain ⟨h1, h2, h3⟩ := hv
    rw [init_of_valid k p s h1 h2 h3, init_after_gpios_list k p _ _ hname]
    simp [Outcome.ret]
  · have hbad : p.init.length > k.FBTFT_MAX_INIT_SEQUENCE ∨ p.gpios.length > MAX_GPIOS ∨
        ∃ e ∈ p.gpios, gpio_entry_ok k e = false := by
      by_cases h1 : p.init.length ≤ k.FBTFT_MAX_INIT_SEQUENCE
      · by_cases h2 : p.gpios.length ≤ MAX_GPIOS
        · exact Or.inr (Or.inr (exists_bad_of_not_all_ok k _ (fun h3 => hv ⟨h1, h2, h3⟩)))
        · exact Or.inr (Or.inl (by omega))
      · exact Or.inl (by omega)
    obtain ⟨hi, _, hds, hsb, hpb, hsd, hpd⟩ := init_of_invalid k p s hbad
    exact ⟨Or.inr hi, fun h1 h2 h3 => absurd ⟨h1, h2, h3⟩ hv, hsb, hpb, hsd, hpd, hds⟩

/-- C1 (witness): the load attempt `name=list` on a freshly loaded module. -/
theorem C1_list_canceled_witness :
    (fbtft_device_init kernel_ok { name := some "list".toList } (state_at_load [] [])).1 =
      Outcome.canceled ∧
    (fbtft_device_init kernel_ok { name := some "list".toList } (state_at_load [] [])).1.ret =
      some (-ECANCELED) :=
  (C1_list_canceled kernel_ok { name := some "list".toList } (state_at_load [] []) rfl).2.1
    (by decide) (by decide) (by decide)

/-- C2 (the code at the failing inputs): with `custom` and a name that a built-in
entry carries, the loop stops at the built-in entry, not at the custom slot.
`name=flexpfb custom speed=1000` (non-zero speed) registers a platform device
and no SPI device; `name=flexfb custom` (zero speed) registers an SPI device and
no platform device. -/
theorem C2_custom_name_collision :
    ((fbtft_device_init kernel_ok
        { name := some "flexpfb".toList, custom := true, speed := 1000 }
        (state_at_load [] [])).1 = Outcome.registered ∧
      (fbtft_device_init kernel_ok
        { name := some "flexpfb".toList, custom := true, speed := 1000 }
        (state_at_load [] [])).2.spi_device = none ∧
      (fbtft_device_init kernel_ok
        { name := some "flexpfb".toList, custom := true, speed := 1000 }
        (state_at_load [] [])).2.spi_bus = [] ∧
      ((fbtft_device_init kernel_ok
        { name := some "flexpfb".toList, custom := true, speed := 1000 }
        (state_at_load [] [])).2.platform_bus.map (fun pdev => pdev.name)) =
          ["flexpfb".toList]) ∧
    ((fbtft_device_init kernel_ok { name := some "flexfb".toList, custom := true }
        (state_at_load [] [])).1 = Outcome.registered ∧
      (fbtft_device_init kernel_ok { name := some "flexfb".toList, custom := true }
        (state_at_load [] [])).2.p_device = none ∧
      (fbtft_device_init kernel_ok { name := some "flexfb".toList, custom := true }
        (state_at_load [] [])).2.platform_bus = [] ∧
      ((fbtft_device_init kernel_ok { name := some "flexfb".toList, custom := true }
        (state_at_load [] [])).2.spi_bus.map (fun dev => dev.modalias)) =
          ["flexfb".toList]) := by
  decide

/-- C3: a gpios list with more than 32 entries, or with an entry that has no
`':'`, or whose text after the first `':'` is empty or is rejected by the
base-10 `kstrtol`, makes the load attempt fail with `-EINVAL`, at one of the
parameter checks of `fbtft_device_init`. -/
theorem C3_gpios_invalid_parameter (k : Kernel) (p : Params) (s : State)
    (h : p.gpios.length > 32 ∨
      ∃ e ∈ p.gpios, ':' ∉ e ∨ number_half e = [] ∨
        ∃ err, kstrtol k.KSTRTOLL_STRICT k.BITS_PER_LONG (number_half e) 10 = Except.error err) :
    (fbtft_device_init k p s).1.ret = some (-EINVAL) ∧
    (fbtft_device_init k p s).1.invalid_parameter = true := by
  have hbad : p.init.length > k.FBTFT_MAX_INIT_SEQUENCE ∨ p.gpios.length > MAX_GPIOS ∨
      ∃ e ∈ p.gpios, gpio_entry_ok k e = false := by
    rcases h with h | ⟨e, he, h⟩
    · exact Or.inr (Or.inl h)
    · refine Or.inr (Or.inr ⟨e, he, ?_⟩)
      rcases h with h | h | ⟨err, h⟩
      · simp [gpio_entry_ok, h]
      · simp [gpio_entry_ok, parsed_number, h, kstrtol_nil]
      · simp [gpio_entry_ok, parsed_number, h]
  have hi := (init_of_invalid k p s hbad).1
  exact ⟨invalid_parameter_ret _ hi, hi⟩

/-- C3 (witness): the gpios parameter `reset:25,dc:2x4`, whose second number is
not a base-10 integer. -/
theorem C3_gpios_invalid_parameter_witness :
    (fbtft_device_init kernel_ok
      { name := some "spidev".toList, gpios := ["reset:25".toList, "dc:2x4".toList] }
      (state_at_load [] [])).1.ret = some (-EINVAL) :=
  (C3_gpios_invalid_parameter kernel_ok
    { name := some "spidev".toList, gpios := ["reset:25".toList, "dc:2x4".toList] }
    (state_at_load [] [])
    (Or.inr ⟨"dc:2x4".toList, by decide, Or.inr (Or.inr ⟨-EINVAL, rfl⟩)⟩)).1

/-- C4 (counterexample): the gpios parameter `:25`, whose name half is empty, is
not rejected: the device `spidev` is registered, and the binding stored at index
0 has an empty name and the number 25. -/
theorem C4_empty_name_not_rejected :
    (fbtft_device_init kernel_ok { name := some "spidev".toList, gpios := [":25".toList] }
      (state_at_load [] [])).1 = Outcome.registered ∧
    (fbtft_device_init kernel_ok { name := some "spidev".toList, gpios := [":25".toList] }
      (state_at_load [] [])).2.fbtft_device_param_gpios.head? =
        some { name := [], gpio := 25 } := by
  decide

/-- C4 (amended): the gpios loop does not look at the name half. A list of at most
32 entries that all have a `':'` and a number half accepted by `kstrtol` gets
past the parameter checks, entries with an empty name half included, and every
entry is stored with its name half as it is and its number converted to `int`. -/
theorem C4_empty_name_accepted (k : Kernel) (p : Params) (s : State)
    (hinit : p.init.length ≤ k.FBTFT_MAX_INIT_SEQUENCE) (hnum : p.gpios.length ≤ MAX_GPIOS)
    (hlen : s.fbtft_device_param_gpios.length = MAX_GPIOS + 1)
    (hok : ∀ e ∈ p.gpios, ':' ∈ e ∧
      ∃ val, kstrtol k.KSTRTOLL_STRICT k.BITS_PER_LONG (number_half e) 10 = Except.ok val) :
    (fbtft_device_init k p s).1.invalid_parameter = false ∧
    (fbtft_device_init k p s).2.fbtft_device_param_gpios =
      p.gpios.map (fun e => { name := name_half e,
                              gpio := int_cast ((parsed_number k (number_half e)).getD 0) }) ++
        s.fbtft_device_param_gpios.drop p.gpios.length := by
  have hok' : ∀ e ∈ p.gpios, gpio_entry_ok k e = true := by
    intro e he
    obtain ⟨hc, val, hv⟩ := hok e he
    simp [gpio_entry_ok, parsed_number, hc, hv]
  rw [init_of_valid k p s hinit hnum hok']
  refine ⟨(init_after_gpios_frame _ _ _ _).1, ?_⟩
  rw [(init_after_gpios_frame _ _ _ _).2]
  simp only
  rw [store_bindings_eq _ _ _ (by simp; omega)]
  simp [gpio_of_entry]

/-- C4 (witness): the gpios parameter `reset:25,:24`. -/
theorem C4_empty_name_accepted_witness :
    (fbtft_device_init kernel_ok
      { name := some "spidev".toList, gpios := ["reset:25".toList, ":24".toList] }
      (state_at_load [] [])).1.invalid_parameter = false :=
  (C4_empty_name_accepted kernel_ok
    { name := some "spidev".toList, gpios := ["reset:25".toList, ":24".toList] }
    (state_at_load [] []) (by decide) (by decide) (by decide)
    (by
      intro e he
      simp only [List.mem_cons, List.mem_singleton, List.not_mem_nil, or_false] at he
      rcases he with rfl | rfl
      · exact ⟨by decide, 25, rfl⟩
      · exact ⟨by decide, 24, rfl⟩)).1

/-- C5: for at most 32 pairs (name, number) with non-empty names that contain no
`':'` and fit the name field, and numbers in the signed 32-bit range, the gpios
parameter made of the texts `"<name>:<decimal number>"` passes the parameter
checks of a freshly loaded module and leaves in `fbtft_device_param_gpios` a
sequence whose bindings up to the terminating empty-name entry are exactly those
pairs, in order; the terminating entry is there, and writing the bindings out
again gives the parameter back. -/
theorem C5_gpios_roundtrip (k : Kernel) (p : Params) (s : State)
    (pairs : List (List Char × Int))
    (hbits : 32 ≤ k.BITS_PER_LONG)
    (hinit : p.init.length ≤ k.FBTFT_MAX_INIT_SEQUENCE)
    (hbuf : s.fbtft_device_param_gpios = fbtft_device_param_gpios_init)
    (hcount : pairs.length ≤ MAX_GPIOS)
    (hpairs : ∀ q ∈ pairs, q.1 ≠ [] ∧ ':' ∉ q.1 ∧ q.1.length < k.FBTFT_GPIO_NAME_SIZE ∧
      -(2 ^ 31 : Int) ≤ q.2 ∧ q.2 < (2 ^ 31 : Int))
    (hgpios : p.gpios = pairs.map (fun q => q.1 ++ ':' :: itoa q.2)) :
    (fbtft_device_init k p s).1.invalid_parameter = false ∧
    gpio_bindings (fbtft_device_init k p s).2.fbtft_device_param_gpios =
      pairs.map (fun q => { name := q.1, gpio := q.2 }) ∧
    (fbtft_device_init k p s).2.fbtft_device_param_gpios.get? pairs.length = some gpio_end ∧
    (gpio_bindings (fbtft_device_init k p s).2.fbtft_device_param_gpios).map gpio_serialise =
      p.gpios := by
  have hnum : p.gpios.length ≤ MAX_GPIOS := by simp [hgpios, hcount]
  have hentry : ∀ q ∈ pairs,
      gpio_entry_ok k (q.1 ++ ':' :: itoa q.2) = true ∧
      gpio_of_entry k (q.1 ++ ':' :: itoa q.2) = { name := q.1, gpio := q.2 } := by
    intro q hq
    obtain ⟨_, hcolon, _, hlo, hhi⟩ := hpairs q hq
    have hk := kstrtol_itoa k.KSTRTOLL_STRICT k.BITS_PER_LONG q.2 hbits hlo hhi
    have hn := number_half_append q.1 (itoa q.2) hcolon
    have hm := name_half_append q.1 (itoa q.2) hcolon
    constructor
    · simp [gpio_entry_ok, parsed_number, hn, hk]
    · simp [gpio_of_entry, parsed_number, hn, hm, hk, int_cast_of_int32 q.2 hlo hhi]
  have hok : ∀ e ∈ p.gpios, gpio_entry_ok k e = true := by
    intro e he
    rw [hgpios, List.mem_map] at he
    obtain ⟨q, hq, rfl⟩ := he
    exact (hentry q hq).1
  have hmap : p.gpios.map (gpio_of_entry k) =
      pairs.map (fun q => ({ name := q.1, gpio := q.2 } : fbtft_gpio)) := by
    rw [hgpios, List.map_map]
    apply List.map_congr_left
    intro q hq
    exact (hentry q hq).2
  have hstore : (fbtft_device_init k p s).2.fbtft_device_param_gpios =
      pairs.map (fun q => ({ name := q.1, gpio := q.2 } : fbtft_gpio)) ++
        gpio_end :: List.replicate (MAX_GPIOS - pairs.length) gpio_end := by
    rw [init_of_valid k p s hinit hnum hok, (init_after_gpios_frame _ _ _ _).2]
    simp only
    rw [hmap, hbuf, store_bindings_eq _ _ _
      (by simp [fbtft_device_param_gpios_init]; omega)]
    simp only [List.take_zero, List.nil_append, Nat.zero_add, List.length_map,
      fbtft_device_param_gpios_init, List.drop_replicate]
    have hrep : MAX_GPIOS + 1 - pairs.length = (MAX_GPIOS - pairs.length) + 1 := by omega
    rw [hrep, List.replicate_succ]
  have hnames : ∀ g ∈ pairs.map (fun q => ({ name := q.1, gpio := q.2 } : fbtft_gpio)),
      g.name ≠ [] := by
    intro g hg
    rw [List.mem_map] at hg
    obtain ⟨q, hq, rfl⟩ := hg
    exact (hpairs q hq).1
  have hbind := gpio_bindings_append _ (List.replicate (MAX_GPIOS - pairs.length) gpio_end) hnames
  refine ⟨?_, ?_, ?_, ?_⟩
  · rw [init_of_valid k p s hinit hnum hok]
    exact (init_after_gpios_frame _ _ _ _).1
  · rw [hstore, hbind]
  · rw [hstore, List.get?_eq_getElem?, List.getElem?_append_right (by simp)]
    simp
  · rw [hstore, hbind, hgpios, List.map_map]
    rfl

/-- C5 (witness): the gpios parameter `reset:25,dc:-24`. -/
theorem C5_gpios_roundtrip_witness :
    gpio_bindings (fbtft_device_init kernel_ok
      { name := some "spidev".toList, gpios := ["reset:25".toList, "dc:-24".toList] }
      (state_at_load [] [])).2.fbtft_device_param_gpios =
      [{ name := "reset".toList, gpio := 25 }, { name := "dc".toList, gpio := -24 }] :=
  (C5_gpios_roundtrip kernel_ok
    { name := some "spidev".toList, gpios := ["reset:25".toList, "dc:-24".toList] }
    (state_at_load [] []) [("reset".toList, 25), ("dc".toList, -24)]
    (by decide) (by decide) rfl (by decide) (by decide) (by decide)).2.1

/-- C6 (counterexample): after the failed load attempt with the gpios parameter
`reset:25,dc:24,oops`, the override sequence `fbtft_device_param_gpios` holds the
bindings of the two well-formed entries that precede the bad one. -/
theorem C6_partial_bindings_stored :
    (fbtft_device_init kernel_ok
      { name := some "spidev".toList,
        gpios := ["reset:25".toList, "dc:24".toList, "oops".toList] }
      (state_at_load [] [])).1 = Outcome.gpios_missing_colon ∧
    gpio_bindings (fbtft_device_init kernel_ok
      { name := some "spidev".toList,
        gpios := ["reset:25".toList, "dc:24".toList, "oops".toList] }
      (state_at_load [] [])).2.fbtft_device_param_gpios =
      [{ name := "reset".toList, gpio := 25 }, { name := "dc".toList, gpio := 24 }] := by
  decide

/-- C6 (amended): a gpios list with a malformed entry, wherever it occurs, makes
the load attempt fail with the invalid-parameter error (`-EINVAL`); no binding
is installed: no descriptor is changed, nothing is registered or deleted and no
handle is taken. The bindings of the well-formed entries in front of the first
malformed one are what the loop has by then stored in the static array
`fbtft_device_param_gpios`. -/
theorem C6_malformed_gpios_install_nothing (k : Kernel) (p : Params) (s : State)
    (h : ∃ e ∈ p.gpios, gpio_entry_ok k e = false) :
    (fbtft_device_init k p s).1.ret = some (-EINVAL) ∧
    (fbtft_device_init k p s).1.invalid_parameter = true ∧
    (fbtft_device_init k p s).2.displays = s.displays ∧
    (fbtft_device_init k p s).2.spi_bus = s.spi_bus ∧
    (fbtft_device_init k p s).2.platform_bus = s.platform_bus ∧
    (fbtft_device_init k p s).2.spi_device = s.spi_device ∧
    (fbtft_device_init k p s).2.p_device = s.p_device ∧
    (p.init.length ≤ k.FBTFT_MAX_INIT_SEQUENCE → p.gpios.length ≤ MAX_GPIOS →
      (fbtft_device_init k p s).2.fbtft_device_param_gpios =
        store_bindings s.fbtft_device_param_gpios 0
          ((p.gpios.takeWhile (gpio_entry_ok k)).map (gpio_of_entry k))) := by
  obtain ⟨hi, _, hds, hsb, hpb, hsd, hpd⟩ := init_of_invalid k p s (Or.inr (Or.inr h))
  refine ⟨invalid_parameter_ret _ hi, hi, hds, hsb, hpb, hsd, hpd, ?_⟩
  intro h1 h2
  have h1' : ¬ p.init.length > k.FBTFT_MAX_INIT_SEQUENCE := by omega
  have h2' : ¬ p.gpios.length > MAX_GPIOS := by omega
  obtain ⟨err, herr, _⟩ := gpios_loop_some_bad k p.gpios 0 s.fbtft_device_param_gpios h
  have hpair : gpios_loop k p.gpios 0 s.fbtft_device_param_gpios =
      (some err, store_bindings s.fbtft_device_param_gpios 0
        ((p.gpios.takeWhile (gpio_entry_ok k)).map (gpio_of_entry k))) := by
    rw [← herr, gpios_loop_eq]
  simp only [fbtft_device_init, h1', h2', if_false]
  rw [hpair]

/-- C6 (witness): the gpios parameter `reset:25,dc:24,oops`. -/
theorem C6_malformed_gpios_install_nothing_witness :
    (fbtft_device_init kernel_ok
      { name := some "spidev".toList,
        gpios := ["reset:25".toList, "dc:24".toList, "oops".toList] }
      (state_at_load [] [])).2.displays = displays :=
  (C6_malformed_gpios_install_nothing kernel_ok
    { name := some "spidev".toList,
      gpios := ["reset:25".toList, "dc:24".toList, "oops".toList] }
    (state_at_load [] []) ⟨"oops".toList, by decide, by decide⟩).2.2.1

/-- C7: with accepted `init` and `gpios` parameters and without `custom`, a name
that is neither `"list"` nor the name of an entry of the catalog makes
`fbtft_device_init` fail with the error of an unsupported display (`-EINVAL`);
no handle is taken, no device is deleted or registered and no descriptor is
changed. -/
theorem C7_unknown_name (k : Kernel) (p : Params) (s : State) (name : List Char)
    (hds : s.displays = displays) (hcustom : p.custom = false) (hname : p.name = some name)
    (hlist : name ≠ "list".toList) (hunknown : ∀ d ∈ displays, d.name ≠ name)
    (hinit : p.init.length ≤ k.FBTFT_MAX_INIT_SEQUENCE) (hnum : p.gpios.length ≤ MAX_GPIOS)
    (hok : ∀ e ∈ p.gpios, gpio_entry_ok k e = true) :
    (fbtft_device_init k p s).1 = Outcome.display_not_supported ∧
    (fbtft_device_init k p s).1.ret = some (-EINVAL) ∧
    (fbtft_device_init k p s).2.spi_device = s.spi_device ∧
    (fbtft_device_init k p s).2.p_device = s.p_device ∧
    (fbtft_device_init k p s).2.spi_bus = s.spi_bus ∧
    (fbtft_device_init k p s).2.platform_bus = s.platform_bus ∧
    (fbtft_device_init k p s).2.displays = displays := by
  rw [init_of_valid_named k p s name hcustom hname hlist hinit hnum hok, hds,
    (displays_lookup_none_exact name).2 hunknown]
  simp [Outcome.ret, hds]

/-- C7 (witness): the load attempt `name=doesnotexist` on a freshly loaded
module. -/
theorem C7_unknown_name_witness :
    (fbtft_device_init kernel_ok { name := some "doesnotexist".toList }
      (state_at_load [] [])).1 = Outcome.display_not_supported :=
  (C7_unknown_name kernel_ok { name := some "doesnotexist".toList } (state_at_load [] [])
    "doesnotexist".toList rfl rfl rfl (by decide) (by decide) (by decide) (by decide)
    (by decide)).1

/-- C8: the search of the `displays` loop in the catalog as built is an exact,
case-sensitive match in catalog order. It finds the entry at index `i` exactly
when that entry is the first whose name equals the requested name character for
character, and finds nothing exactly when no entry has that name; the names of
the catalog are pairwise distinct and none is `"list"`. Accordingly a load
attempt without `custom` ends as an unsupported display exactly when no entry has
the requested name. -/
theorem C8_exact_first_match (name : List Char) :
    (∀ i d, displays_lookup name displays 0 = some (i, d) ↔
      displays[i]? = some d ∧ d.name = name ∧
        ∀ j, j < i → ∀ d', displays[j]? = some d' → d'.name ≠ name) ∧
    (displays_lookup name displays 0 = none ↔ ∀ d ∈ displays, d.name ≠ name) ∧
    (displays.map (fun d => d.name)).Nodup ∧
    "list".toList ∉ displays.map (fun d => d.name) ∧
    (∀ (k : Kernel) (p : Params) (s : State),
      s.displays = displays → p.custom = false → p.name = some name →
      name ≠ "list".toList → p.init.length ≤ k.FBTFT_MAX_INIT_SEQUENCE →
      p.gpios.length ≤ MAX_GPIOS → (∀ e ∈ p.gpios, gpio_entry_ok k e = true) →
      ((fbtft_device_init k p s).1 = Outcome.display_not_supported ↔
        ∀ d ∈ displays, d.name ≠ name)) := by
  refine ⟨fun i d => displays_lookup_exact name i d, displays_lookup_none_exact name,
    by decide, by decide, ?_⟩
  intro k p s hds hcustom hname hlist hinit hnum hok
  rw [init_of_valid_named k p s name hcustom hname hlist hinit hnum hok, hds,
    ← displays_lookup_none_exact name]
  cases hl : displays_lookup name displays 0 with
  | none => simp
  | some r =>
    obtain ⟨i, d⟩ := r
    simp only [reduceCtorEq, iff_false]
    exact init_matched_supported _ _ _ _ _ _ _

/-- C8 (witness): `spidev` resolves to entry 20 of the catalog, while the names
`Spidev`, `spide` and `spidevx` resolve to nothing. -/
theorem C8_exact_first_match_witness :
    (displays_lookup "spidev".toList displays 0).map (fun r => r.1) = some 20 ∧
    displays_lookup "Spidev".toList displays 0 = none ∧
    displays_lookup "spide".toList displays 0 = none ∧
    displays_lookup "spidevx".toList displays 0 = none :=
  ⟨by decide,
   (C8_exact_first_match "Spidev".toList).2.1.2 (by decide),
   (C8_exact_first_match "spide".toList).2.1.2 (by decide),
   (C8_exact_first_match "spidevx".toList).2.1.2 (by decide)⟩

/-- C9: an out-of-range `rotate` (above 3) makes the load attempt run exactly as
with `rotate=0`, so it never makes it fail; and whenever a load attempt gets
behind the override merging, the rotation in the configuration of the matched
descriptor is `rotate` itself when `rotate <= 3` and 0 otherwise. -/
theorem C9_rotate_clamped (k : Kernel) (p : Params) (s : State) :
    (p.rotate > 3 → fbtft_device_init k p s = fbtft_device_init k { p with rotate := 0 } s) ∧
    ((fbtft_device_init k p s).1.merged = true →
      ∃ name i d pd, p.name = some name ∧
        displays_lookup name (fbtft_device_init k p s).2.displays 0 = some (i, d) ∧
        d.pdata = some pd ∧ pd.rotate = if p.rotate ≤ 3 then p.rotate else 0) := by
  constructor
  · intro h
    simp only [fbtft_device_init, init_after_gpios, h, if_true]
    rfl
  · intro hm
    obtain ⟨name, ds, i, d0, pd0, d1, hname, _, _, _, hlook, hpd⟩ := init_merged k p s hm
    refine ⟨name, i, d1, _, hname, hlook, hpd, ?_⟩
    simp only [override_merge, rotate_checked]
    by_cases h : p.rotate ≤ 3
    · have h' : ¬ p.rotate > 3 := by omega
      simp [h, h']
    · have h' : p.rotate > 3 := by omega
      simp [h, h']

/-- C9 (witness): `rotate=7` with `name=spidev` runs as `rotate=0` does, and
registers the device. -/
theorem C9_rotate_clamped_witness :
    fbtft_device_init kernel_ok { name := some "spidev".toList, rotate := 7 }
        (state_at_load [] []) =
      fbtft_device_init kernel_ok { name := some "spidev".toList, rotate := 0 }
        (state_at_load [] []) ∧
    (fbtft_device_init kernel_ok { name := some "spidev".toList, rotate := 7 }
        (state_at_load [] [])).1 = Outcome.registered :=
  ⟨(C9_rotate_clamped kernel_ok { name := some "spidev".toList, rotate := 7 }
      (state_at_load [] [])).1 (by decide), by decide⟩

/-- C10 (counterexample): the load attempt `name=spidev gamma=` (an empty gamma
string) leaves the empty string as the gamma of the descriptor, whose built-in
default is NULL: the default is not kept. -/
theorem C10_empty_gamma_overwrites :
    ((displays_lookup "spidev".toList displays 0).bind (fun r => r.2.pdata)).map
      (fun pd => pd.gamma) = some none ∧
    (fbtft_device_init kernel_ok { name := some "spidev".toList, gamma := some [] }
      (state_at_load [] [])).1 = Outcome.registered ∧
    ((displays_lookup "spidev".toList
      (fbtft_device_init kernel_ok { name := some "spidev".toList, gamma := some [] }
        (state_at_load [] [])).2.displays 0).bind (fun r => r.2.pdata)).map
      (fun pd => pd.gamma) = some (some []) := by
  decide

/-- C10 (amended): whenever a load attempt gets behind the override merging, the
configuration `pd1` of the matched descriptor relates to its configuration `pd0`
before the merging as follows: the color order is the caller's `bgr` when that
is 0 or 1 and the default otherwise; start byte, frame rate and transmit-buffer
length are the caller's value when it is non-zero and the default when it is
zero; gamma is the caller's string whenever the `gamma` parameter was given,
even empty, and the default only when it was not given. -/
theorem C10_override_merge (k : Kernel) (p : Params) (s : State)
    (hm : (fbtft_device_init k p s).1.merged = true) :
    ∃ name ds i d0 pd0 d1 pd1,
      p.name = some name ∧
      (if p.custom then custom_install p name s.displays else some s.displays) = some ds ∧
      displays_lookup name ds 0 = some (i, d0) ∧ d0.pdata = some pd0 ∧
      displays_lookup name (fbtft_device_init k p s).2.displays 0 = some (i, d1) ∧
      d1.pdata = some pd1 ∧
      pd1.bgr = (if p.bgr = 0 then false else if p.bgr = 1 then true else pd0.bgr) ∧
      pd1.startbyte = (if p.startbyte ≠ 0 then p.startbyte else pd0.startbyte) ∧
      pd1.gamma = (match p.gamma with
        | some g => some g
        | none => pd0.gamma) ∧
      pd1.fps = (if p.fps ≠ 0 then p.fps else pd0.fps) ∧
      pd1.txbuflen = (if p.txbuflen ≠ 0 then p.txbuflen else pd0.txbuflen) := by
  obtain ⟨name, ds, i, d0, pd0, d1, hname, hins, hlook0, hpd0, hlook1, hpd1⟩ :=
    init_merged k p s hm
  exact ⟨name, ds, i, d0, pd0, d1, _, hname, hins, hlook0, hpd0, hlook1, hpd1,
    rfl, rfl, rfl, rfl, rfl⟩

/-- C10 (witness): the load attempt `name=adafruit22 bgr=0 fps=25`: the default
color order of `adafruit22` (BGR) is overridden and the frame rate is set. -/
theorem C10_override_merge_witness :
    ∃ name ds i d0 pd0 d1 pd1,
      (some "adafruit22".toList : Option (List Char)) = some name ∧
      (some displays : Option (List fbtft_device_display)) = some ds ∧
      displays_lookup name ds 0 = some (i, d0) ∧ d0.pdata = some pd0 ∧
      displays_lookup name
        (fbtft_device_init kernel_ok
          { name := some "adafruit22".toList, bgr := 0, fps := 25 }
          (state_at_load [] [])).2.displays 0 = some (i, d1) ∧
      d1.pdata = some pd1 ∧ pd1.bgr = false ∧ pd1.fps = 25 := by
  obtain ⟨name, ds, i, d0, pd0, d1, pd1, h1, h2, h3, h4, h5, h6, h7, _, _, h10, _⟩ :=
    C10_override_merge kernel_ok { name := some "adafruit22".toList, bgr := 0, fps := 25 }
      (state_at_load [] []) (by decide)
  exact ⟨name, ds, i, d0, pd0, d1, pd1, h1, h2, h3, h4, h5, h6, h7, h10⟩

/-- C11: the override merging of lines 710-732 is idempotent. For every
configuration and every override set, merging twice gives the configuration
that merging once gives; and the configuration that a load attempt leaves in
the matched descriptor is not changed by merging the same overrides again. -/
theorem C11_override_merge_idempotent (k : Kernel) (p : Params) (s : State) :
    (∀ (rotate : Nat) (gpio : Option (List fbtft_gpio)) (pdata : fbtft_platform_data),
      override_merge p rotate gpio (override_merge p rotate gpio pdata) =
        override_merge p rotate gpio pdata) ∧
    ((fbtft_device_init k p s).1.merged = true →
      ∃ name i d1 pd1, p.name = some name ∧
        displays_lookup name (fbtft_device_init k p s).2.displays 0 = some (i, d1) ∧
        d1.pdata = some pd1 ∧
        override_merge p (rotate_checked p)
          (if p.gpios.length > 0 then some (fbtft_device_init k p s).2.fbtft_device_param_gpios
           else none) pd1 = pd1) := by
  have hidem : ∀ (rotate : Nat) (gpio : Option (List fbtft_gpio)) (pdata : fbtft_platform_data),
      override_merge p rotate gpio (override_merge p rotate gpio pdata) =
        override_merge p rotate gpio pdata := by
    intro rotate gpio pdata
    simp only [override_merge]
    congr 1
    · congr 1 <;> split_ifs <;> rfl
    · cases gpio <;> rfl
    · split_ifs <;> rfl
    · split_ifs <;> rfl
    · split_ifs <;> rfl
    · split_ifs <;> rfl
    · cases p.gamma <;> rfl
  refine ⟨hidem, ?_⟩
  intro hm
  obtain ⟨name, ds, i, d0, pd0, d1, hname, _, _, _, hlook, hpd⟩ := init_merged k p s hm
  exact ⟨name, i, d1, _, hname, hlook, hpd, hidem _ _ _⟩

/-- C11 (witness): the load attempt `name=adafruit22 bgr=0 fps=25 gpios=reset:5`. -/
theorem C11_override_merge_idempotent_witness :
    ∃ name i d1 pd1, (some "adafruit22".toList : Option (List Char)) = some name ∧
      displays_lookup name
        (fbtft_device_init kernel_ok
          { name := some "adafruit22".toList, bgr := 0, fps := 25, gpios := ["reset:5".toList] }
          (state_at_load [] [])).2.displays 0 = some (i, d1) ∧
      d1.pdata = some pd1 ∧
      override_merge
        { name := some "adafruit22".toList, bgr := 0, fps := 25, gpios := ["reset:5".toList] }
        0
        (some (fbtft_device_init kernel_ok
          { name := some "adafruit22".toList, bgr := 0, fps := 25, gpios := ["reset:5".toList] }
          (state_at_load [] [])).2.fbtft_device_param_gpios) pd1 = pd1 :=
  (C11_override_merge_idempotent kernel_ok
    { name := some "adafruit22".toList, bgr := 0, fps := 25, gpios := ["reset:5".toList] }
    (state_at_load [] [])).2 (by decide)

/-- C12: behind the override merging, the binding sequence of the matched
descriptor is the override sequence `fbtft_device_param_gpios` when at least one
gpios entry was given, and the descriptor's own sequence when none was. On a
freshly loaded module the override sequence consists of the bindings of the
given entries, in order, followed by empty entries only, so each of its
bindings is one the caller gave. -/
theorem C12_gpios_replaced_wholesale (k : Kernel) (p : Params) (s : State)
    (hm : (fbtft_device_init k p s).1.merged = true) :
    ∃ name ds i d0 pd0 d1 pd1,
      p.name = some name ∧
      (if p.custom then custom_install p name s.displays else some s.displays) = some ds ∧
      displays_lookup name ds 0 = some (i, d0) ∧ d0.pdata = some pd0 ∧
      displays_lookup name (fbtft_device_init k p s).2.displays 0 = some (i, d1) ∧
      d1.pdata = some pd1 ∧
      (p.gpios ≠ [] →
        pd1.gpios = (fbtft_device_init k p s).2.fbtft_device_param_gpios ∧
        (s.fbtft_device_param_gpios = fbtft_device_param_gpios_init →
          pd1.gpios = p.gpios.map (gpio_of_entry k) ++
            List.replicate (MAX_GPIOS + 1 - p.gpios.length) gpio_end ∧
          ∀ g ∈ gpio_bindings pd1.gpios, g ∈ p.gpios.map (gpio_of_entry k))) ∧
      (p.gpios = [] → pd1.gpios = pd0.gpios) := by
  obtain ⟨name, ds, i, d0, pd0, d1, hname, hins, hlook0, hpd0, hlook1, hpd1⟩ :=
    init_merged k p s hm
  obtain ⟨hinit, hnum, hok⟩ := init_merged_valid k p s hm
  refine ⟨name, ds, i, d0, pd0, d1, _, hname, hins, hlook0, hpd0, hlook1, hpd1, ?_, ?_⟩
  · intro hne
    have hpos : p.gpios.length > 0 := List.length_pos.2 hne
    have hg : (override_merge p (rotate_checked p)
        (if p.gpios.length > 0 then some (fbtft_device_init k p s).2.fbtft_device_param_gpios
         else none) pd0).gpios = (fbtft_device_init k p s).2.fbtft_device_param_gpios := by
      simp [override_merge, hpos]
    refine ⟨hg, ?_⟩
    intro hbuf
    have hstore : (fbtft_device_init k p s).2.fbtft_device_param_gpios =
        p.gpios.map (gpio_of_entry k) ++
          List.replicate (MAX_GPIOS + 1 - p.gpios.length) gpio_end := by
      rw [init_of_valid k p s hinit hnum hok, (init_after_gpios_frame _ _ _ _).2]
      simp only
      rw [hbuf, store_bindings_eq _ _ _ (by simp [fbtft_device_param_gpios_init]; omega)]
      simp [fbtft_device_param_gpios_init]
    rw [hg, hstore]
    refine ⟨rfl, ?_⟩
    intro g hgm
    have hmem := List.mem_takeWhile_imp hgm
    have hin := (List.takeWhile_sublist _).subset hgm
    rw [List.mem_append] at hin
    rcases hin with hin | hin
    · exact hin
    · have : g = gpio_end := List.eq_of_mem_replicate hin
      rw [this] at hmem
      exact absurd hmem (by decide)
  · intro hnil
    simp [override_merge, hnil]

/-- C12 (witness): the load attempt `name=adafruit18fb gpios=reset:5,dc:6`
leaves exactly the bindings `reset` = 5 and `dc` = 6 in the descriptor (the
default `led` = 23 is gone). -/
theorem C12_gpios_replaced_wholesale_witness :
    ((displays_lookup "adafruit18fb".toList
      (fbtft_device_init kernel_ok
        { name := some "adafruit18fb".toList, gpios := ["reset:5".toList, "dc:6".toList] }
        (state_at_load [] [])).2.displays 0).bind (fun r => r.2.pdata)).map
      (fun pd => gpio_bindings pd.gpios) = some [gp "reset" 5, gp "dc" 6] ∧
    ∃ name ds i d0 pd0 d1 pd1,
      (some "adafruit18fb".toList : Option (List Char)) = some name ∧
      (some displays : Option (List fbtft_device_display)) = some ds ∧
      displays_lookup name ds 0 = some (i, d0) ∧ d0.pdata = some pd0 ∧
      displays_lookup name
        (fbtft_device_init kernel_ok
          { name := some "adafruit18fb".toList, gpios := ["reset:5".toList, "dc:6".toList] }
          (state_at_load [] [])).2.displays 0 = some (i, d1) ∧
      d1.pdata = some pd1 ∧
      pd1.gpios = (fbtft_device_init kernel_ok
          { name := some "adafruit18fb".toList, gpios := ["reset:5".toList, "dc:6".toList] }
          (state_at_load [] [])).2.fbtft_device_param_gpios := by
  refine ⟨by decide, ?_⟩
  obtain ⟨name, ds, i, d0, pd0, d1, pd1, h1, h2, h3, h4, h5, h6, h7, _⟩ :=
    C12_gpios_replaced_wholesale kernel_ok
      { name := some "adafruit18fb".toList, gpios := ["reset:5".toList, "dc:6".toList] }
      (state_at_load [] []) (by decide)
  exact ⟨name, ds, i, d0, pd0, d1, pd1, h1, h2, h3, h4, h5, h6, (h7 (by decide)).1⟩

/-- C13 (the code at the failing input): on a freshly loaded module, where no
handle is held, the load attempt `name=flexpfb` whose `platform_device_register`
fails returns the error (-17) and leaves `p_device` set: the handle was assigned
at line 703, before the registration. The sibling failure of `spi_new_device`
(`name=spidev`) leaves both handles null. -/
theorem C13_platform_failure_keeps_handle :
    ((fbtft_device_init kernel_no_device { name := some "flexpfb".toList }
        (state_at_load [] [])).1 = Outcome.platform_device_register_failed (-17) ∧
      (fbtft_device_init kernel_no_device { name := some "flexpfb".toList }
        (state_at_load [] [])).1.ret = some (-17) ∧
      (fbtft_device_init kernel_no_device { name := some "flexpfb".toList }
        (state_at_load [] [])).2.p_device.isSome = true ∧
      (fbtft_device_init kernel_no_device { name := some "flexpfb".toList }
        (state_at_load [] [])).2.platform_bus = []) ∧
    ((fbtft_device_init kernel_no_device { name := some "spidev".toList }
        (state_at_load [] [])).1 = Outcome.spi_new_device_failed ∧
      (fbtft_device_init kernel_no_device { name := some "spidev".toList }
        (state_at_load [] [])).2.spi_device = none ∧
      (fbtft_device_init kernel_no_device { name := some "spidev".toList }
        (state_at_load [] [])).2.p_device = none) := by
  decide

/-- C14 (counterexample): after the load attempt `name=spidev` has registered its
device, `fbtft_device_exit` removes the device from the SPI bus but `spi_device`
still holds it: the handle is not cleared. -/
theorem C14_exit_keeps_handle :
    (fbtft_device_init kernel_ok { name := some "spidev".toList }
      (state_at_load [] [])).2.spi_bus.length = 1 ∧
    (fbtft_device_exit (fbtft_device_init kernel_ok { name := some "spidev".toList }
      (state_at_load [] [])).2).spi_bus = [] ∧
    (fbtft_device_exit (fbtft_device_init kernel_ok { name := some "spidev".toList }
      (state_at_load [] [])).2).spi_device.isSome = true := by
  decide

/-- C14 (amended): `fbtft_device_exit` removes from its bus the device object of
each held handle (the SPI device of `spi_device`, the platform device of
`p_device`), so that on a bus without duplicates the object is no longer
registered; it leaves `spi_device` and `p_device` themselves as they were, and
the catalog and the override array untouched. When no handle is held it changes
nothing. -/
theorem C14_exit_deletes_held_devices (s : State) :
    (fbtft_device_exit s).spi_bus =
      (match s.spi_device with
       | some dev => s.spi_bus.erase dev
       | none => s.spi_bus) ∧
    (fbtft_device_exit s).platform_bus =
      (match s.p_device with
       | some pdev => s.platform_bus.erase pdev
       | none => s.platform_bus) ∧
    (∀ dev, s.spi_device = some dev → s.spi_bus.Nodup → dev ∉ (fbtft_device_exit s).spi_bus) ∧
    (∀ pdev, s.p_device = some pdev → s.platform_bus.Nodup →
      pdev ∉ (fbtft_device_exit s).platform_bus) ∧
    (fbtft_device_exit s).spi_device = s.spi_device ∧
    (fbtft_device_exit s).p_device = s.p_device ∧
    (fbtft_device_exit s).displays = s.displays ∧
    (fbtft_device_exit s).fbtft_device_param_gpios = s.fbtft_device_param_gpios ∧
    (s.spi_device = none → s.p_device = none → fbtft_device_exit s = s) := by
  have herase : ∀ {α : Type} [DecidableEq α] (l : List α) (a : α), l.Nodup → a ∉ l.erase a :=
    fun l a hnd hmem => ((List.Nodup.mem_erase_iff hnd).1 hmem).1 rfl
  obtain ⟨ds, buf, sb, pb, sd, pd⟩ := s
  cases sd <;> cases pd <;> simp [fbtft_device_exit] <;>
    first
    | exact fun hnd => herase _ _ hnd
    | exact ⟨fun hnd => herase _ _ hnd, fun hnd => herase _ _ hnd⟩

/-- C14 (witness): teardown after the load attempt `name=spidev`. -/
theorem C14_exit_deletes_held_devices_witness :
    (fbtft_device_exit (fbtft_device_init kernel_ok { name := some "spidev".toList }
      (state_at_load [] [])).2).spi_device =
    (fbtft_device_init kernel_ok { name := some "spidev".toList }
      (state_at_load [] [])).2.spi_device :=
  (C14_exit_deletes_held_devices (fbtft_device_init kernel_ok { name := some "spidev".toList }
      (state_at_load [] [])).2).2.2.2.2.1

/-- C15: from a state in which no handle is held, a load attempt that returns 0
ends with exactly one handle set: `spi_device` and not `p_device`, or `p_device`
and not `spi_device`. -/
theorem C15_one_handle_on_success (k : Kernel) (p : Params) (s : State)
    (hs : s.spi_device = none) (hp : s.p_device = none)
    (hret : (fbtft_device_init k p s).1.ret = some 0) :
    ((fbtft_device_init k p s).2.spi_device.isSome = true ∧
      (fbtft_device_init k p s).2.p_device = none) ∨
    ((fbtft_device_init k p s).2.spi_device = none ∧
      (fbtft_device_init k p s).2.p_device.isSome = true) := by
  obtain ⟨h1, _, h3, _⟩ := init_handles k p s
  have hreg : (fbtft_device_init k p s).1 = Outcome.registered := by
    cases ho : (fbtft_device_init k p s).1 with
    | platform_device_register_failed ret =>
      have hneg := (h3 ret ho).1
      rw [ho] at hret
      simp only [Outcome.ret, Option.some.injEq] at hret
      omega
    | registered => rfl
    | _ => rw [ho] at hret; simp [Outcome.ret, EINVAL, ECANCELED, EPERM] at hret
  rcases h1 hreg with ⟨ha, hb⟩ | ⟨ha, hb⟩
  · exact Or.inl ⟨ha, hb.trans hp⟩
  · exact Or.inr ⟨ha.trans hs, hb⟩

/-- C15 (witness): `name=spidev` sets `spi_device` only, `name=flexpfb` sets
`p_device` only. -/
theorem C15_one_handle_on_success_witness :
    (((fbtft_device_init kernel_ok { name := some "spidev".toList }
        (state_at_load [] [])).2.spi_device.isSome = true ∧
      (fbtft_device_init kernel_ok { name := some "spidev".toList }
        (state_at_load [] [])).2.p_device = none) ∨
     ((fbtft_device_init kernel_ok { name := some "spidev".toList }
        (state_at_load [] [])).2.spi_device = none ∧
      (fbtft_device_init kernel_ok { name := some "spidev".toList }
        (state_at_load [] [])).2.p_device.isSome = true)) ∧
    (fbtft_device_init kernel_ok { name := some "flexpfb".toList }
        (state_at_load [] [])).2.spi_device = none :=
  ⟨C15_one_handle_on_success kernel_ok { name := some "spidev".toList } (state_at_load [] [])
    rfl rfl (by decide), by decide⟩

/-- C16 (counterexample): the reserved custom slot of the catalog as built, entry
22 of `displays`, has both templates populated. -/
theorem C16_custom_slot_has_both_templates :
    (displays[22]?).map (fun d => (d.name, d.spi.isSome, d.pdev.isSome)) =
      some ([], true, true) ∧
    (displays[22]?).map (fun d => d.one_template) = some false ∧
    displays.length = 23 := by
  decide

/-- C16 (amended): each of the 22 built-in entries of the catalog has exactly one
of its two templates populated; the reserved custom slot has both as built, and
exactly one after a custom installation (`spi` for a non-zero speed, `pdev` for
speed zero), so that after a custom installation every entry of the catalog has
exactly one. -/
theorem C16_one_template (p : Params) (name : List Char) :
    (∀ d ∈ displays.take 22, d.one_template = true) ∧
    (displays.drop 22).map (fun d => (d.spi.isSome, d.pdev.isSome)) = [(true, true)] ∧
    (∃ ds, custom_install p name displays = some ds ∧
      (∀ d ∈ ds, d.one_template = true) ∧
      (ds[22]?).map (fun d => (d.spi.isSome, d.pdev.isSome)) =
        some (decide (p.speed ≠ 0), decide (p.speed = 0))) := by
  have hbuiltin : ∀ d ∈ displays.take 22, d.one_template = true := by decide
  refine ⟨hbuiltin, by decide, displays.set 22 (custom_slot p name),
    custom_install_displays p name, ?_, ?_⟩
  · intro d hd
    rw [displays_set_custom, List.mem_append, List.mem_singleton] at hd
    rcases hd with hd | hd
    · exact hbuiltin d hd
    · rw [hd]
      by_cases h : p.speed = 0 <;>
        simp [custom_slot, h, fbtft_device_display.one_template]
  · have hlt : 22 < displays.length := by decide
    rw [List.getElem?_set_self hlt]
    by_cases h : p.speed = 0 <;> simp [custom_slot, h]

/-- C16 (witness): after the custom installation for `name=mydisplay speed=1000`
every entry of the catalog has exactly one template. -/
theorem C16_one_template_witness :
    ∃ ds, custom_install { speed := 1000 } "mydisplay".toList displays = some ds ∧
      (∀ d ∈ ds, d.one_template = true) ∧
      (ds[22]?).map (fun d => (d.spi.isSome, d.pdev.isSome)) = some (true, false) :=
  (C16_one_template { speed := 1000 } "mydisplay".toList).2.2

/-- C17: when the requested name resolves to a descriptor with an `spi` template
and `spi_busnum_to_master` finds no controller for `busnum`, the load attempt
fails with the error of line 690 (`-EINVAL`) before any registration side
effect: the device sets of both buses and both handles are as they were. -/
theorem C17_no_spi_master (k : Kernel) (p : Params) (s : State) (name : List Char)
    (ds : List fbtft_device_display) (i : Nat) (d : fbtft_device_display)
    (spi : spi_board_info)
    (hinit : p.init.length ≤ k.FBTFT_MAX_INIT_SEQUENCE) (hnum : p.gpios.length ≤ MAX_GPIOS)
    (hok : ∀ e ∈ p.gpios, gpio_entry_ok k e = true)
    (hname : p.name = some name) (hlist : name ≠ "list".toList)
    (hins : (if p.custom then custom_install p name s.displays else some s.displays) = some ds)
    (hlook : displays_lookup name ds 0 = some (i, d)) (hspi : d.spi = some spi)
    (hmaster : k.spi_busnum_to_master p.busnum = none) :
    (fbtft_device_init k p s).1 = Outcome.no_spi_master ∧
    (fbtft_device_init k p s).1.ret = some (-EINVAL) ∧
    (fbtft_device_init k p s).2.spi_bus = s.spi_bus ∧
    (fbtft_device_init k p s).2.platform_bus = s.platform_bus ∧
    (fbtft_device_init k p s).2.spi_device = s.spi_device ∧
    (fbtft_device_init k p s).2.p_device = s.p_device := by
  rw [init_of_valid_installed k p s name ds hinit hnum hok hname hlist hins, hlook]
  simp [init_matched, hspi, hmaster, Outcome.ret]

/-- C17 (witness): `name=spidev busnum=5` where only bus 0 has a controller. -/
theorem C17_no_spi_master_witness :
    (fbtft_device_init kernel_ok { name := some "spidev".toList, busnum := 5 }
      (state_at_load [] [])).1 = Outcome.no_spi_master :=
  (C17_no_spi_master kernel_ok { name := some "spidev".toList, busnum := 5 }
    (state_at_load [] []) "spidev".toList displays 20
    { name := "spidev".toList,
      spi := some { modalias := "spidev".toList, max_speed_hz := 500000, mode := SPI_MODE_0,
                    platform_data := { gpios := [gpio_end] } } }
    { modalias := "spidev".toList, max_speed_hz := 500000, mode := SPI_MODE_0,
      platform_data := { gpios := [gpio_end] } }
    (by decide) (by decide) (by decide) rfl (by decide) rfl (by decide) rfl rfl).1

/-- C18: on an SPI bus whose device names are pairwise distinct,
`fbtft_device_delete` is idempotent; the device set it leaves consists of the
devices whose name is not the address it computes, which is
`"<bus name>.<cs>"` whenever that text fits its 32-byte buffer; it changes
nothing but the SPI device set, and nothing at all when no device has that
name. -/
theorem C18_delete_idempotent (master : spi_master) (cs : Nat) (s : State)
    (huniq : (s.spi_bus.map (fun dev => dev.name)).Nodup) :
    fbtft_device_delete master cs (fbtft_device_delete master cs s) =
      fbtft_device_delete master cs s ∧
    (fbtft_device_delete master cs s).spi_bus =
      s.spi_bus.filter
        (fun dev => decide (dev.name ≠ snprintf_name_dot_u 32 master.name cs)) ∧
    (master.name.length + 1 + (utoa cs).length < 32 →
      snprintf_name_dot_u 32 master.name cs = master.name ++ '.' :: utoa cs) ∧
    ((∀ dev ∈ s.spi_bus, dev.name ≠ snprintf_name_dot_u 32 master.name cs) →
      fbtft_device_delete master cs s = s) ∧
    (fbtft_device_delete master cs s).platform_bus = s.platform_bus ∧
    (fbtft_device_delete master cs s).displays = s.displays ∧
    (fbtft_device_delete master cs s).spi_device = s.spi_device ∧
    (fbtft_device_delete master cs s).p_device = s.p_device := by
  have hbus := fbtft_device_delete_spi_bus master cs s huniq
  obtain ⟨hds, _, hpb, hsd, hpd⟩ := fbtft_device_delete_frame master cs s
  refine ⟨?_, hbus, ?_, fbtft_device_delete_absent master cs s, hpb, hds, hsd, hpd⟩
  · apply fbtft_device_delete_absent
    intro dev hdev
    rw [hbus, List.mem_filter] at hdev
    simpa using hdev.2
  · intro hfit
    unfold snprintf_name_dot_u
    apply List.take_of_length_le
    simp only [List.length_append, List.length_cons]
    omega

/-- C18 (witness): the bus holds `spi0.0` and `spi0.1`; deleting at chip select 0
of `spi0` leaves `spi0.1`, and deleting again changes nothing. -/
theorem C18_delete_idempotent_witness :
    (fbtft_device_delete { name := "spi0".toList, bus_num := 0 } 0
      (fbtft_device_delete { name := "spi0".toList, bus_num := 0 } 0
        (state_at_load
          [{ name := "spi0.0".toList, modalias := "spidev".toList, max_speed_hz := 500000,
             chip_select := 0, mode := 0, platform_data := {} },
           { name := "spi0.1".toList, modalias := "spidev".toList, max_speed_hz := 500000,
             chip_select := 1, mode := 0, platform_data := {} }] []))) =
    fbtft_device_delete { name := "spi0".toList, bus_num := 0 } 0
        (state_at_load
          [{ name := "spi0.0".toList, modalias := "spidev".toList, max_speed_hz := 500000,
             chip_select := 0, mode := 0, platform_data := {} },
           { name := "spi0.1".toList, modalias := "spidev".toList, max_speed_hz := 500000,
             chip_select := 1, mode := 0, platform_data := {} }] []) ∧
    ((fbtft_device_delete { name := "spi0".toList, bus_num := 0 } 0
        (state_at_load
          [{ name := "spi0.0".toList, modalias := "spidev".toList, max_speed_hz := 500000,
             chip_select := 0, mode := 0, platform_data := {} },
           { name := "spi0.1".toList, modalias := "spidev".toList, max_speed_hz := 500000,
             chip_select := 1, mode := 0, platform_data := {} }] [])).spi_bus.map
      (fun dev => dev.name)) = ["spi0.1".toList] :=
  ⟨(C18_delete_idempotent { name := "spi0".toList, bus_num := 0 } 0
      (state_at_load
        [{ name := "spi0.0".toList, modalias := "spidev".toList, max_speed_hz := 500000,
           chip_select := 0, mode := 0, platform_data := {} },
         { name := "spi0.1".toList, modalias := "spidev".toList, max_speed_hz := 500000,
           chip_select := 1, mode := 0, platform_data := {} }] [])
      (by decide)).1, by decide⟩

/-- C19 (the code at the failing input): the gpios entry whose name half consists
of 40 letters `a` is accepted and the device registered; the name stored in the
binding is the whole name half, 40 characters, although the name field has
`FBTFT_GPIO_NAME_SIZE` = 32 bytes: `strcpy` (line 636) does not truncate. -/
theorem C19_long_name_not_truncated :
    (fbtft_device_init kernel_ok
      { name := some "spidev".toList,
        gpios := [List.replicate 40 'a' ++ ":25".toList] }
      (state_at_load [] [])).1 = Outcome.registered ∧
    (fbtft_device_init kernel_ok
      { name := some "spidev".toList,
        gpios := [List.replicate 40 'a' ++ ":25".toList] }
      (state_at_load [] [])).2.fbtft_device_param_gpios.head? =
        some { name := List.replicate 40 'a', gpio := 25 } ∧
    kernel_ok.FBTFT_GPIO_NAME_SIZE = 32 := by
  decide

/-- C20 (the code at the failing input): without `custom`, the empty name is
found at index 22 of the catalog as built, the reserved custom slot; the load
attempt `name=` goes on with that slot and registers an SPI device with an
empty modalias. -/
theorem C20_empty_name_resolves_custom_slot :
    (displays_lookup [] displays 0).map (fun r => r.1) = some 22 ∧
    displays.length = 23 ∧
    (fbtft_device_init kernel_ok { name := some [], custom := false }
      (state_at_load [] [])).1 = Outcome.registered ∧
    ((fbtft_device_init kernel_ok { name := some [], custom := false }
      (state_at_load [] [])).2.spi_device.map (fun dev => dev.modalias)) = some [] := by
  decide

/-- C21: in a load attempt on the catalog as built, whatever the parameters are,
`fbtft_device_init` never takes the "broken displays array" return of line 707
(nor dereferences a NULL template in the custom branch): the catalog in place
for the search, the custom slot after its installation included, has a template
in every entry, so the descriptor that the search finds has one. -/
theorem C21_broken_displays_unreachable (k : Kernel) (p : Params) (s : State)
    (hds : s.displays = displays) :
    (fbtft_device_init k p s).1 ≠ Outcome.broken_displays ∧
    (fbtft_device_init k p s).1 ≠ Outcome.oops ∧
    (∀ name, ∃ ds,
      (if p.custom then custom_install p name s.displays else some s.displays) = some ds ∧
      ∀ i d, displays_lookup name ds 0 = some (i, d) →
        d.spi.isSome = true ∨ d.pdev.isSome = true) := by
  have hres : ∀ name, ∃ ds,
      (if p.custom then custom_install p name s.displays else some s.displays) = some ds ∧
      ∀ i d, displays_lookup name ds 0 = some (i, d) →
        d.spi.isSome = true ∨ d.pdev.isSome = true := by
    intro name
    obtain ⟨ds, hins, hall⟩ := installed_has_template p name
    rw [hds]
    exact ⟨ds, hins, fun i d hl => hall d (displays_lookup_mem name ds 0 i d hl)⟩
  refine ⟨?_, ?_, hres⟩
  all_goals
    by_cases hv : p.init.length ≤ k.FBTFT_MAX_INIT_SEQUENCE ∧ p.gpios.length ≤ MAX_GPIOS ∧
        ∀ e ∈ p.gpios, gpio_entry_ok k e = true
    · obtain ⟨h1, h2, h3⟩ := hv
      cases hname : p.name with
      | none =>
        rw [init_of_valid k p s h1 h2 h3, init_after_gpios_no_name _ _ _ _ hname]
        simp
      | some name =>
        by_cases hl : name = "list".toList
        · rw [init_of_valid k p s h1 h2 h3, init_after_gpios_list _ _ _ _ (hl ▸ hname)]
          simp
        · obtain ⟨ds, hins, hall⟩ := hres name
          rw [init_of_valid_installed k p s name ds h1 h2 h3 hname hl hins]
          cases hlook : displays_lookup name ds 0 with
          | none => simp
          | some r =>
            obtain ⟨i, d⟩ := r
            simp only
            first
            | exact (init_matched_not_broken _ _ _ _ _ _ _ (hall i d hlook)).1
            | exact (init_matched_not_broken _ _ _ _ _ _ _ (hall i d hlook)).2
    · have hbad : p.init.length > k.FBTFT_MAX_INIT_SEQUENCE ∨ p.gpios.length > MAX_GPIOS ∨
          ∃ e ∈ p.gpios, gpio_entry_ok k e = false := by
        by_cases h1 : p.init.length ≤ k.FBTFT_MAX_INIT_SEQUENCE
        · by_cases h2 : p.gpios.length ≤ MAX_GPIOS
          · exact Or.inr (Or.inr (exists_bad_of_not_all_ok k _ (fun h3 => hv ⟨h1, h2, h3⟩)))
          · exact Or.inr (Or.inl (by omega))
        · exact Or.inl (by omega)
      have hi := (init_of_invalid k p s hbad).1
      intro ho
      rw [ho] at hi
      exact absurd hi (by decide)

/-- C21 (witness): the load attempt `name=mydisplay custom speed=1000` on a
freshly loaded module. -/
theorem C21_broken_displays_unreachable_witness :
    (fbtft_device_init kernel_ok
      { name := some "mydisplay".toList, custom := true, speed := 1000 }
      (state_at_load [] [])).1 ≠ Outcome.broken_displays ∧
    (fbtft_device_init kernel_ok
      { name := some "mydisplay".toList, custom := true, speed := 1000 }
      (state_at_load [] [])).1 = Outcome.registered :=
  ⟨(C21_broken_displays_unreachable kernel_ok
      { name := some "mydisplay".toList, custom := true, speed := 1000 }
      (state_at_load [] []) rfl).1, by decide⟩

end FbtftDevice
